import Mathlib

/-!
Verification development for the allergy-card request handlers.

The repository contains several variants of a single HTTP handler that
normalizes form input (allergen tags, language code), produces card content
(generated text with a deterministic fallback, or an image/SVG overlay over a
per-language template), and dispatches an email.  External collaborators
(text-generation backend, SMTP/Resend delivery, Cloudinary upload, template
asset reads) are modelled as explicit oracle arguments of type `Except`,
matching the spec's treatment of them as opaque sinks.  All string operations
are embedded at the character-list level so that every definition is
executable and kernel-evaluable.
-/

/-! ## Character-level embeddings of the JavaScript string operations -/

/-- JS `String.prototype.toLowerCase` (ASCII range, as used by the repo). -/
def jsToLower (s : String) : String :=
  String.mk (s.data.map Char.toLower)

/-- JS `String.prototype.toUpperCase` (ASCII range, as used by the repo). -/
def jsToUpper (s : String) : String :=
  String.mk (s.data.map Char.toUpper)

/-- JS `String.prototype.trim`: strip leading and trailing whitespace. -/
def jsTrim (s : String) : String :=
  String.mk (((s.data.dropWhile Char.isWhitespace).reverse.dropWhile
    Char.isWhitespace).reverse)

/-- Core of JS `replace(/\s+/g, "_")`: each maximal run of whitespace
characters becomes a single underscore.  The boolean records whether the
previous character was whitespace. -/
def squashWSAux : Bool → List Char → List Char
  | _, [] => []
  | prevWS, c :: rest =>
    if c.isWhitespace then
      (if prevWS then [] else ['_']) ++ squashWSAux true rest
    else
      c :: squashWSAux false rest

/-- JS `s.replace(/\s+/g, "_")`. -/
def replaceWSRuns (s : String) : String :=
  String.mk (squashWSAux false s.data)

/-- The per-token normalization `String(s).trim().toLowerCase().replace(/\s+/g, "_")`
used by `normalizeAllergensFromBody` on array and string inputs. -/
def normToken (s : String) : String :=
  replaceWSRuns (jsToLower (jsTrim s))

/-- JS `String.prototype.split(",")` at the character level:
`"a,b"` splits to `["a","b"]`, `""` splits to `[""]`. -/
def splitCommaCh : List Char → List String
  | [] => [""]
  | c :: rest =>
    if c = ',' then "" :: splitCommaCh rest
    else
      match splitCommaCh rest with
      | [] => [String.mk [c]]
      | s :: ss => String.mk (c :: s.data) :: ss

/-- JS `s.split(",")`. -/
def splitComma (s : String) : List String :=
  splitCommaCh s.data

/-- JS `Array.prototype.join(sep)`. -/
def joinSep (sep : String) : List String → String
  | [] => ""
  | [t] => t
  | t :: rest => t ++ sep ++ joinSep sep rest

/-- JS `s.replace(/c/g, r)` for a single character `c`: replace every
occurrence of `c` by the character list `r`. -/
def replaceAllCh (c : Char) (r : List Char) (l : List Char) : List Char :=
  l.flatMap (fun ch => if ch = c then r else [ch])

/-- JS `s.replace(/a/g, b)` for single characters `a`, `b`. -/
def replaceChar (a b : Char) (s : String) : String :=
  String.mk (s.data.map (fun c => if c = a then b else c))

/-- The HTML escaping chain from the text handlers:
`.replace(/&/g,"&amp;").replace(/</g,"&lt;").replace(/>/g,"&gt;")`. -/
def escapeHtml (s : String) : String :=
  String.mk (replaceAllCh '>' "&gt;".data (replaceAllCh '<' "&lt;".data
    (replaceAllCh '&' "&amp;".data s.data)))

/-- `leadsWith p l`: the character list `p` is an initial segment of `l`
(embedding of JS `String.prototype.startsWith`). -/
def leadsWith : List Char → List Char → Bool
  | [], _ => true
  | _ :: _, [] => false
  | a :: as, b :: bs => a = b && leadsWith as bs

/-- `hasSub n l`: `n` occurs as a contiguous run inside `l`. -/
def hasSub (n : List Char) : List Char → Bool
  | [] => leadsWith n []
  | l@(_ :: rest) => leadsWith n l || hasSub n rest

/-- JS `k.startsWith(p)`. -/
def jsStartsWith (p s : String) : Bool :=
  leadsWith p.data s.data

/-- JS `k.replace("allergens_", "")` on a key that starts with the
ten-character marker `allergens_`: drop the first ten characters. -/
def dropAllergensKey (s : String) : String :=
  String.mk (s.data.drop 10)

/-! ## Fixed vocabularies (part_000 / part_002, `CONFIG` section) -/

/-- `KNOWN_ALLERGENS` from the text-variant handlers. -/
def KNOWN_ALLERGENS : List String :=
  ["eggs", "dairy", "peanuts", "tree_nuts", "shellfish", "soy"]

/-- `SUPPORTED_LANGS` from the text-variant handlers. -/
def SUPPORTED_LANGS : List String :=
  ["en", "fr", "es", "pt", "zh"]

/-! ## Request-body model

A JS request body is dynamic; the handlers read the `allergens` field (which
may be an array, a string, or absent/other) and, in the checkbox pattern,
scan all body keys for truthy fields named `allergens_<tag>`. -/

/-- Shape of the `allergens` field of the body. -/
inductive AllergenField
  | arr (xs : List String)
  | str (s : String)
  | absent
deriving DecidableEq

/-- The parts of the request body the handlers consult.  Missing string
fields are modelled as `""` (JS default-destructuring with falsy check).
`fields` lists the body's remaining keys with their JS truthiness, as
consulted by the checkbox scan. -/
structure Body where
  email : String
  name : String
  contact_name : String
  contact_phone : String
  language : String
  allergens : AllergenField
  fields : List (String × Bool)
deriving DecidableEq

/-- The checkbox pattern of `normalizeAllergensFromBody` (step 2): keys
named `allergens_<tag>` with truthy values, marker stripped, lowercased,
whitespace collapsed to underscores, filtered to the vocabulary. -/
def cleanFromCheckboxes (body : Body) : List String :=
  (((body.fields.filter (fun kv => jsStartsWith "allergens_" kv.1 && kv.2)).map
      (fun kv => jsToLower (dropAllergensKey kv.1))).map
    (fun v => replaceWSRuns v)).filter (fun v => KNOWN_ALLERGENS.contains v)

/-- `normalizeAllergensFromBody` (part_000 first variant / part_002): try the
array shape, then the comma-separated string shape, then the checkbox
fields; the first branch with a non-empty normalized result wins. -/
def normalizeAllergensFromBody (body : Body) : List String :=
  match body.allergens with
  | .arr direct =>
    let norm := (direct.map normToken).filter (fun v => KNOWN_ALLERGENS.contains v)
    if norm.length ≠ 0 then norm else cleanFromCheckboxes body
  | .str direct =>
    let norm := ((splitComma direct).map normToken).filter
      (fun v => KNOWN_ALLERGENS.contains v)
    if norm.length ≠ 0 then norm else cleanFromCheckboxes body
  | .absent => cleanFromCheckboxes body

/-- `normalizeLanguage` (part_000 first variant / part_002):
`String(lang || "").trim().toLowerCase()`, then membership in
`SUPPORTED_LANGS` with silent default `"en"`. -/
def normalizeLanguage (lang : String) : String :=
  let v := jsToLower (jsTrim lang)
  if SUPPORTED_LANGS.contains v then v else "en"

/-- The spec's description of language normalization, used to compare the
variants against the claim: lowercase and trim; a supported code passes
through, anything else defaults to `"en"`. -/
def claimedNormalizeLanguage (lang : String) : String :=
  let v := jsToLower (jsTrim lang)
  if SUPPORTED_LANGS.contains v then v else "en"

/-- The inline language selection of the canvas image handlers
(`render-and-email.mjs` and part_003):
`language = (language || "en").toLowerCase(); const L = LANGS[language] ? language : "en";`
— note: no trim. -/
def renderNormalizeLanguage (language : String) : String :=
  let l := jsToLower (if language = "" then "en" else language)
  if SUPPORTED_LANGS.contains l then l else "en"

/-- The inline language selection of the second text variant (part_000,
second handler): `SUPPORTED.has((language||"").toLowerCase()) ? language.toLowerCase() : "en"`. -/
def langB (language : String) : String :=
  if SUPPORTED_LANGS.contains (jsToLower language) then jsToLower language else "en"

/-- The inline allergen handling of the canvas image handlers
(`render-and-email.mjs` lines 80–82 and part_003 lines 70–72): a string is
split on commas, trimmed, lowercased and filtered for emptiness only; an
array passes through unchanged; no vocabulary filter is applied. -/
def renderAllergenList : AllergenField → List String
  | .arr xs => xs
  | .str s => ((splitComma s).map (fun x => jsToLower (jsTrim x))).filter
      (fun x => x != "")
  | .absent => []

/-! ## Static marker layout and overlay composition -/

/-- The `marks` table shared by the canvas handlers (`render-and-email.mjs`,
part_003) and the SVG handler (part_001): fixed per-allergen coordinates. -/
def marks : List (String × Nat × Nat) :=
  [("eggs", 170, 250), ("dairy", 520, 250), ("peanuts", 870, 250),
   ("tree_nuts", 170, 380), ("shellfish", 520, 380), ("soy", 870, 380)]

/-- The draw loop of the canvas handlers:
`for (const key of Object.keys(marks)) if (allergens.includes(key)) fillText("✖", x, y)`.
Each element is one executed `fillText` call, as `(key, x, y)`. -/
def drawnMarks (allergens : List String) : List (String × Nat × Nat) :=
  marks.filter (fun m => allergens.contains m.1)

/-- Modelled from the spec's wording of the overlay contract, for comparison
with `drawnMarks`: one mark at the fixed coordinate for each vocabulary
allergen present in the set, nothing for absent allergens, tags outside the
layout ignored. -/
def specMarks (allergens : List String) : List (String × Nat × Nat) :=
  KNOWN_ALLERGENS.filterMap (fun k =>
    if allergens.contains k then
      match marks.lookup k with
      | some p => some (k, p)
      | none => none
    else none)

/-- One `<text>` element of the overlay SVG (part_001, `buildOverlaySVG`). -/
def svgMarkup (p : Nat × Nat) : String :=
  "<text x=\"" ++ toString p.1 ++ "\" y=\"" ++ toString p.2 ++
    "\" font-family=\"Arial, sans-serif\" font-weight=\"700\" font-size=\"64\" fill=\"#111\">✖</text>"

/-- The `xs` computation of `buildOverlaySVG`: each layout entry maps to a
`<text>` element when its tag is present and to `""` otherwise. -/
def svgMarkStrings (allergens : List String) : List String :=
  marks.map (fun m => if allergens.contains m.1 then svgMarkup m.2 else "")

/-- `buildOverlaySVG` (part_001): the overlay SVG document. -/
def buildOverlaySVG (width height : Nat) (name : String)
    (allergens : List String) (emergencyText : String) : String :=
  "\n    <svg width=\"" ++ toString width ++ "\" height=\"" ++ toString height ++
    "\" xmlns=\"http://www.w3.org/2000/svg\">\n      <text x=\"" ++
    toString (width / 2) ++ "\" y=\"95\" text-anchor=\"middle\"\n            font-family=\"Arial, sans-serif\" font-weight=\"700\" font-size=\"72\" fill=\"#111\">\n        " ++
    jsToUpper name ++ "\n      </text>\n      " ++
    joinSep "" (svgMarkStrings allergens) ++ "\n      <text x=\"125\" y=\"" ++
    toString (height - 45) ++
    "\"\n            font-family=\"Arial, sans-serif\"\n            font-weight=\"700\" font-size=\"40\" fill=\"#fff\">\n        " ++
    emergencyText ++ "\n      </text>\n    </svg>\n  "

/-! ## Per-language profiles -/

/-- One entry of the `LANGS` table of the image handlers. -/
structure LangProfile where
  template : String
  emergency : String
  subject : String
  emailLine : String → String

/-- The `LANGS` table (`render-and-email.mjs` / part_001 / part_003 share the
same strings; template paths differ only by directory). -/
def LANGS : List (String × LangProfile) :=
  [("en", ⟨"template-en.png", "Emergency Contact:", "Your Allergy Card",
      fun n => "Hi " ++ (if n = "" then "there" else n) ++ ", your allergy card is ready."⟩),
   ("fr", ⟨"template-fr.png", "Contact d’urgence :", "Votre carte d’allergies",
      fun n => "Bonjour " ++ n ++ ", votre carte d’allergies est prête."⟩),
   ("es", ⟨"template-es.png", "Contacto de emergencia:", "Tu tarjeta de alergias",
      fun n => "Hola " ++ n ++ ", tu tarjeta de alergias está lista."⟩),
   ("pt", ⟨"template-pt.png", "Contacto de emergência:", "Seu cartão de alergias",
      fun n => "Olá " ++ n ++ ", seu cartão de alergias está pronto."⟩),
   ("zh", ⟨"template-zh.png", "紧急联系人：", "过敏卡已生成",
      fun _ => "您的过敏卡已生成。"⟩)]

/-- Profile lookup for a language code already normalized to a key of
`LANGS` (the handlers only index `LANGS` with such codes). -/
def langProfile (l : String) : LangProfile :=
  ((LANGS.lookup l).getD ⟨"template-en.png", "Emergency Contact:", "Your Allergy Card",
    fun n => "Hi " ++ (if n = "" then "there" else n) ++ ", your allergy card is ready."⟩)

/-- The `subjectMap` of the second text variant (part_000, second handler). -/
def subjectMap : List (String × String) :=
  [("en", "Your Allergy Card"), ("fr", "Votre carte d’allergies"),
   ("es", "Tu tarjeta de alergias"), ("pt", "Seu cartão de alergias"),
   ("zh", "您的过敏卡")]

/-! ## Environment and delivery model -/

/-- The environment variables the handlers read ("" means unset, matching JS
truthiness of `process.env` values). -/
structure Env where
  OPENAI_API_KEY : String
  SMTP_HOST : String
  SMTP_PORT : String
  SMTP_USER : String
  SMTP_PASS : String
  EMAIL_FROM : String
  RESEND_API_KEY : String
  CLOUDINARY_CLOUD_NAME : String
  CLOUDINARY_UPLOAD_PRESET : String
deriving DecidableEq

/-- `const FROM_EMAIL = process.env.EMAIL_FROM || "Jaylen <jaylen@onresend.com>"`
(`render-and-email.mjs`, line 10). -/
def FROM_EMAIL (env : Env) : String :=
  if env.EMAIL_FROM = "" then "Jaylen <jaylen@onresend.com>" else env.EMAIL_FROM

/-- `const FROM_EMAIL = process.env.EMAIL_FROM || "no-reply@example.com"`
(part_003, line 9). -/
def FROM_EMAIL3 (env : Env) : String :=
  if env.EMAIL_FROM = "" then "no-reply@example.com" else env.EMAIL_FROM

/-- One message handed to the mail sink (`sendMail` / `resend.emails.send`).
Attachments are recorded as (filename, contentType) pairs. -/
structure Sent where
  sender : String
  to_ : String
  subject : String
  html : String
  text : Option String
  attachments : List (String × String)
deriving DecidableEq

/-- Result of a handler run: the HTTP response fields that were set, plus
instrumentation recording whether the text backend was invoked and whether a
send was handed to the mail library, and the successfully sent messages. -/
structure HandlerResult where
  status : Nat
  ok : Option Bool := none
  error : Option String := none
  emailed_to : Option String := none
  messageId : Option (Option String) := none
  url : Option (Option String) := none
  backendCalled : Bool := false
  sendAttempted : Bool := false
  sent : List Sent := []
  marksDrawn : List (String × Nat × Nat) := []
deriving DecidableEq

/-- Outcome of one call to the opaque text-generation backend: the response
content (possibly empty) or a thrown error. -/
inductive BackendResult
  | ok (text : String)
  | err (msg : String)
deriving DecidableEq

/-! ## Cleaned fields and the deterministic fallback card (part_000 / part_002) -/

/-- The `clean` record built by the text handlers with a normalizer. -/
structure Clean where
  email : String
  name : String
  contact_name : String
  contact_phone : String
  language : String
  allergens : List String
deriving DecidableEq

/-- Field collection and normalization of the text handlers
(part_000 first variant, lines 122–129; part_002, lines 125–132). -/
def cleanOf (body : Body) : Clean :=
  ⟨jsTrim body.email, jsTrim body.name, jsTrim body.contact_name,
   jsTrim body.contact_phone, normalizeLanguage body.language,
   normalizeAllergensFromBody body⟩

/-- `fallbackCard` (part_000 first variant / part_002): the deterministic
fallback card text used when the text backend fails. -/
def fallbackCard (c : Clean) : String :=
  let allergenList :=
    if c.allergens.length ≠ 0 then
      replaceChar '_' ' ' (joinSep ", " c.allergens)
    else "None specified"
  joinSep "\n"
    ["Name: " ++ c.name,
     "I am severely allergic to: " ++ allergenList,
     "Please DO NOT serve me food containing these allergens.",
     jsTrim ("Emergency Contact: " ++ c.contact_name ++ " " ++
       (if c.contact_phone ≠ "" then "(" ++ c.contact_phone ++ ")" else "")),
     "Language: " ++ jsToUpper c.language]

/-! ## HTML bodies of the outgoing emails -/

/-- HTML wrapper of the first text variant and part_002: the (escaped) card
text interpolated into a `pre-wrap` div. -/
def htmlWrapA (inner : String) : String :=
  "\n      <div style=\"font-family:system-ui,Arial,sans-serif;white-space:pre-wrap;line-height:1.45\">\n        "
    ++ inner ++ "\n      </div>\n    "

/-- HTML wrapper of the second text variant (part_000, lines 275–281): the
card text is interpolated into a `<pre>` block with no escaping. -/
def htmlWrapB (cardText : String) : String :=
  "\n      <div style=\"font-family:Arial,Helvetica,sans-serif;line-height:1.5\">\n        <p>Here is your AI-generated allergy card:</p>\n        <pre style=\"white-space:pre-wrap;font-family:inherit;background:#f6f7f9;padding:12px;border-radius:8px\">"
    ++ cardText ++
    "</pre>\n        <p style=\"margin-top:14px;color:#666\">Tip: save this to Notes or print it to keep on hand.</p>\n      </div>\n    "

/-- HTML body of the `render-and-email.mjs` email. -/
def htmlRender (l name : String) : String :=
  "\n      <div style=\"font-family:\x27Open Sans\x27,Arial,sans-serif;line-height:1.45\">\n        <p>"
    ++ (langProfile l).emailLine name ++
    "</p>\n        <p>We’ve attached your PNG allergy card.</p>\n      </div>\n    "

/-- HTML body of the SVG-variant email (part_001). -/
def htmlSvg (l name : String) : String :=
  "\n      <div style=\"font-family:Arial,sans-serif;line-height:1.45\">\n        <p>"
    ++ (langProfile l).emailLine name ++
    "</p>\n        <p>Attached: the base PNG template and the overlay SVG with your details.</p>\n      </div>\n    "

/-- HTML body of the Cloudinary-variant email (part_003), with the optional
link paragraph when a public URL was obtained. -/
def htmlWrap3 (l name publicUrl : String) : String :=
  "\n      <div style=\"font-family:\x27Open Sans\x27,Arial,sans-serif;line-height:1.45\">\n        <p>"
    ++ (langProfile l).emailLine name ++ "</p>\n        " ++
    (if publicUrl ≠ "" then
      "<p><a href=\"" ++ publicUrl ++ "\">View / download the image</a></p>"
     else "") ++
    "\n        <p>We\x27ve also attached the PNG.</p>\n      </div>\n    "

/-! ## Handlers

Each handler is embedded as a pure function of the request body, the
environment, and one oracle argument per external call it makes (text
backend, SMTP verify, mail send, asset read, upload).  All handlers model
the `POST` path; the method/`OPTIONS` gates are upstream of every claim. -/

/-- Handler of `render-and-email.mjs` (canvas image + Resend).
`tplRes` is the template read/decode (`readFile`/`loadImage`), `sendRes` the
Resend send returning an optional id. -/
def handlerRender (env : Env) (body : Body) (tplRes : Except String Unit)
    (sendRes : Except String (Option String)) : HandlerResult :=
  if env.RESEND_API_KEY = "" then
    { status := 500, error := some "Missing RESEND_API_KEY env var" }
  else if FROM_EMAIL env = "" then
    { status := 500, error := some "Missing EMAIL_FROM env var" }
  else if body.email = "" then
    { status := 400, error := some "Missing recipient email" }
  else
    let L := renderNormalizeLanguage body.language
    let allergens := renderAllergenList body.allergens
    match tplRes with
    | .error m =>
      { status := 500, ok := some false,
        error := some (if m = "" then "Render or email failed" else m) }
    | .ok _ =>
      let drawn := drawnMarks allergens
      let mail : Sent :=
        { sender := FROM_EMAIL env, to_ := body.email,
          subject := (langProfile L).subject,
          html := htmlRender L body.name, text := none,
          attachments := [("allergy-card-" ++ L ++ ".png", "image/png")] }
      match sendRes with
      | .error m =>
        { status := 500, ok := some false,
          error := some (if m = "" then "Render or email failed" else m),
          sendAttempted := true, marksDrawn := drawn }
      | .ok mid =>
        { status := 200, ok := some true, emailed_to := some body.email,
          messageId := some (match mid with
            | some i => if i = "" then none else some i
            | none => none),
          sendAttempted := true, sent := [mail], marksDrawn := drawn }

/-- First handler of part_000 (text card, normalizer, OpenAI with local
try/catch and deterministic fallback, nodemailer with `verify`). -/
def handlerTextA (env : Env) (body : Body) (backend : BackendResult)
    (verifyRes : Except String Unit) (sendRes : Except String Unit) :
    HandlerResult :=
  let clean := cleanOf body
  if clean.email = "" ∨ clean.name = "" then
    { status := 400, ok := some false,
      error := some "Missing required fields: name, email" }
  else
    let gen : Except String String :=
      if env.OPENAI_API_KEY = "" then .error "Missing OPENAI_API_KEY"
      else
        match backend with
        | .ok t => if jsTrim t = "" then .error "OpenAI returned empty content"
                   else .ok (jsTrim t)
        | .err m => .error m
    let bc := env.OPENAI_API_KEY ≠ ""
    let cardText := match gen with | .ok t => t | .error _ => fallbackCard clean
    if env.SMTP_HOST = "" ∨ env.SMTP_PORT = "" ∨ env.SMTP_USER = "" ∨
        env.SMTP_PASS = "" then
      { status := 500, ok := some false,
        error := some "Missing SMTP envs (SMTP_HOST/SMTP_PORT/SMTP_USER/SMTP_PASS).",
        backendCalled := bc }
    else
      match verifyRes with
      | .error m =>
        { status := 500, ok := some false,
          error := some ("SMTP auth failed: " ++ (if m = "" then "unknown" else m)),
          backendCalled := bc }
      | .ok _ =>
        if env.EMAIL_FROM = "" then
          { status := 500, ok := some false,
            error := some "Missing EMAIL_FROM (must be a verified sender in Brevo).",
            backendCalled := bc }
        else
          let mail : Sent :=
            { sender := env.EMAIL_FROM, to_ := clean.email,
              subject := "Allergy Card for " ++ clean.name,
              html := htmlWrapA (escapeHtml cardText),
              text := some cardText, attachments := [] }
          match sendRes with
          | .error m =>
            { status := 500, ok := some false,
              error := some (if m = "" then "Internal error" else m),
              backendCalled := bc, sendAttempted := true }
          | .ok _ =>
            { status := 200, ok := some true, emailed_to := some clean.email,
              backendCalled := bc, sendAttempted := true, sent := [mail] }

/-- Second handler of part_000 (text card, no normalizer, OpenAI call with no
local try/catch, nodemailer without `verify`).  Environment checks precede
the body validation in the source. -/
def handlerTextB (env : Env) (body : Body) (backend : BackendResult)
    (sendRes : Except String String) : HandlerResult :=
  if env.OPENAI_API_KEY = "" then
    { status := 500, ok := some false, error := some "Missing OPENAI_API_KEY" }
  else if env.SMTP_HOST = "" ∨ env.SMTP_USER = "" ∨ env.SMTP_PASS = "" ∨
      env.EMAIL_FROM = "" then
    { status := 500, ok := some false, error := some "Missing SMTP env vars" }
  else if body.email = "" then
    { status := 400, ok := some false, error := some "Missing recipient email" }
  else
    match backend with
    | .err m =>
      { status := 500, ok := some false,
        error := some (if m = "" then "Server error" else m),
        backendCalled := true }
    | .ok t =>
      let cardText :=
        if jsTrim t = "" then "Allergy card could not be generated."
        else jsTrim t
      let L := langB body.language
      let subject := (subjectMap.lookup L).getD "Your Allergy Card"
      let mail : Sent :=
        { sender := env.EMAIL_FROM, to_ := body.email, subject := subject,
          html := htmlWrapB cardText, text := none, attachments := [] }
      match sendRes with
      | .error m =>
        { status := 500, ok := some false,
          error := some (if m = "" then "Server error" else m),
          backendCalled := true, sendAttempted := true }
      | .ok mid =>
        { status := 200, ok := some true, emailed_to := some body.email,
          messageId := some (if mid = "" then none else some mid),
          backendCalled := true, sendAttempted := true, sent := [mail] }

/-- Handler of part_002 (text card, normalizer, OpenAI with local try/catch
and fallback; `buildTransporter` performs no environment checks, there is no
`EMAIL_FROM` check, and the catch-all returns the fixed message
`"Internal error"`). -/
def handlerTextC (env : Env) (body : Body) (backend : BackendResult)
    (sendRes : Except String Unit) : HandlerResult :=
  let clean := cleanOf body
  if clean.email = "" ∨ clean.name = "" then
    { status := 400, ok := some false,
      error := some "Missing required fields: name, email" }
  else
    let gen : Except String String :=
      match backend with
      | .ok t => if jsTrim t = "" then .error "OpenAI returned empty content"
                 else .ok (jsTrim t)
      | .err m => .error m
    let cardText := match gen with | .ok t => t | .error _ => fallbackCard clean
    let mail : Sent :=
      { sender := env.EMAIL_FROM, to_ := clean.email,
        subject := "Allergy Card for " ++ clean.name,
        html := htmlWrapA (escapeHtml cardText),
        text := some cardText, attachments := [] }
    match sendRes with
    | .error _ =>
      { status := 500, ok := some false, error := some "Internal error",
        backendCalled := true, sendAttempted := true }
    | .ok _ =>
      { status := 200, ok := some true, emailed_to := some clean.email,
        backendCalled := true, sendAttempted := true, sent := [mail] }

/-- Handler of part_001 (SVG overlay + nodemailer).  `tplRes` is the template
read together with the width/height decoded from the PNG header. -/
def handlerSvg (env : Env) (body : Body) (tplRes : Except String (Nat × Nat))
    (sendRes : Except String String) : HandlerResult :=
  if env.SMTP_HOST = "" ∨ env.SMTP_USER = "" ∨ env.SMTP_PASS = "" ∨
      env.EMAIL_FROM = "" then
    { status := 500, ok := some false, error := some "Missing SMTP env vars" }
  else if body.email = "" then
    { status := 400, ok := some false, error := some "Missing recipient email" }
  else
    let L := renderNormalizeLanguage body.language
    let allergens := renderAllergenList body.allergens
    match tplRes with
    | .error m =>
      { status := 500, ok := some false,
        error := some (if m = "" then "failed" else m) }
    | .ok wh =>
      let emergencyText := (langProfile L).emergency ++ " " ++
        body.contact_name ++ " " ++ body.contact_phone
      let _overlay := buildOverlaySVG wh.1 wh.2 body.name allergens emergencyText
      let mail : Sent :=
        { sender := env.EMAIL_FROM, to_ := body.email,
          subject := (langProfile L).subject,
          html := htmlSvg L body.name, text := none,
          attachments := [("template-" ++ L ++ ".png", "image/png"),
                          ("overlay-" ++ L ++ ".svg", "image/svg+xml")] }
      match sendRes with
      | .error m =>
        { status := 500, ok := some false,
          error := some (if m = "" then "failed" else m),
          sendAttempted := true }
      | .ok mid =>
        { status := 200, ok := some true, emailed_to := some body.email,
          messageId := some (if mid = "" then none else some mid),
          sendAttempted := true, sent := [mail] }

/-- Handler of part_003 (canvas image + optional Cloudinary upload + Resend).
`uploadRes` models the `fetch`/`resp.json()` pair: a thrown error, or a
parsed JSON with (`some url`) or without (`none`) a `secure_url` field.  The
upload block runs only when both Cloudinary variables are set; note that it
has no local try/catch, so a thrown upload error reaches the catch-all. -/
def handlerImgUpload (env : Env) (body : Body)
    (tplRes : Except String Unit) (uploadRes : Except String (Option String))
    (sendRes : Except String (Option String)) : HandlerResult :=
  if body.email = "" then
    { status := 400, error := some "Missing recipient email" }
  else
    let L := renderNormalizeLanguage body.language
    let allergens := renderAllergenList body.allergens
    match tplRes with
    | .error _ =>
      { status := 500, ok := some false, error := some "Render or email failed" }
    | .ok _ =>
      let drawn := drawnMarks allergens
      let upload : Except String String :=
        if env.CLOUDINARY_CLOUD_NAME ≠ "" ∧ env.CLOUDINARY_UPLOAD_PRESET ≠ "" then
          match uploadRes with
          | .error m => .error m
          | .ok (some u) => .ok u
          | .ok none => .ok ""
        else .ok ""
      match upload with
      | .error _ =>
        { status := 500, ok := some false, error := some "Render or email failed",
          marksDrawn := drawn }
      | .ok publicUrl =>
        let mail : Sent :=
          { sender := FROM_EMAIL3 env, to_ := body.email,
            subject := (langProfile L).subject,
            html := htmlWrap3 L body.name publicUrl, text := none,
            attachments := [("allergy-card-" ++ L ++ ".png", "image/png")] }
        match sendRes with
        | .error _ =>
          { status := 500, ok := some false, error := some "Render or email failed",
            sendAttempted := true, marksDrawn := drawn }
        | .ok mid =>
          { status := 200, ok := some true, emailed_to := some body.email,
            url := some (if publicUrl = "" then none else some publicUrl),
            messageId := some (match mid with
              | some i => if i = "" then none else some i
              | none => none),
            sendAttempted := true, sent := [mail], marksDrawn := drawn }

/-! ## Spec-side definitions used for comparison, and concrete fixtures -/

/-- Modelled from the spec: character-wise escaping of `&`, `<`, `>` before
interpolation into HTML. -/
def escCharSpec (c : Char) : List Char :=
  if c = '&' then "&amp;".data
  else if c = '<' then "&lt;".data
  else if c = '>' then "&gt;".data
  else [c]

/-- A fully configured environment. -/
def envFull : Env :=
  ⟨"sk-test", "smtp.example.com", "587", "user", "pass",
   "cards@example.com", "re-key", "democloud", "preset1"⟩

/-- An environment lacking `SMTP_HOST` (and the optional Cloudinary pair). -/
def envNoSmtpHost : Env :=
  ⟨"sk-test", "", "587", "user", "pass", "cards@example.com", "re-key", "", ""⟩

/-- An environment with `EMAIL_FROM` unset. -/
def envNoFrom : Env :=
  ⟨"sk-test", "smtp.example.com", "587", "user", "pass", "", "re-key", "", ""⟩

/-- A well-formed request body. -/
def bodyJo : Body :=
  ⟨"a@b.com", "Jo", "Mom", "555", "fr", .arr ["eggs", "dairy"], []⟩

/-- A body with a recipient email but no name. -/
def bodyNoName : Body :=
  ⟨"a@b.com", "", "", "", "", .arr ["eggs"], []⟩

/-! ## Helper lemmas -/


theorem string_eta (s : String) : String.mk s.data = s := by
  cases s
  rfl

theorem splitCommaCh_ne_nil (l : List Char) : splitCommaCh l ≠ [] := by
  induction l with
  | nil => simp [splitCommaCh]
  | cons c rest ih =>
    simp only [splitCommaCh]
    split
    · simp
    · split
      · simp
      · simp

theorem splitCommaCh_word (w r : List Char) (hw : ',' ∉ w) :
    splitCommaCh (w ++ r) =
      String.mk (w ++ (splitCommaCh r).headI.data) :: (splitCommaCh r).tail := by
  induction w with
  | nil =>
    rcases hsp : splitCommaCh r with _ | ⟨s, ss⟩
    · exact absurd hsp (splitCommaCh_ne_nil r)
    · simp [hsp, string_eta]
  | cons c cs ih =>
    have hc : c ≠ ',' := by
      intro h
      exact hw (by simp [h])
    have hcs : ',' ∉ cs := by
      intro h
      exact hw (by simp [h])
    simp only [List.cons_append, splitCommaCh, if_neg hc, List.append_eq]
    rw [ih hcs]

theorem joinSep_comma_data (t : String) (t2 : String) (rest : List String) :
    (joinSep "," (t :: t2 :: rest)).data =
      t.data ++ ',' :: (joinSep "," (t2 :: rest)).data := by
  have hcd : ",".data = [','] := by decide
  show (t ++ "," ++ joinSep "," (t2 :: rest)).data = _
  rw [String.data_append, String.data_append, hcd]
  simp

theorem splitComma_joinSep (ts : List String) (hne : ts ≠ [])
    (hcf : ∀ t ∈ ts, ',' ∉ t.data) :
    splitComma (joinSep "," ts) = ts := by
  induction ts with
  | nil => exact absurd rfl hne
  | cons t rest ih =>
    cases rest with
    | nil =>
      have hct : ',' ∉ t.data := hcf t (by simp)
      have h := splitCommaCh_word t.data [] hct
      simp only [List.append_nil] at h
      simp [splitComma, joinSep, h, splitCommaCh, string_eta]
    | cons t2 rest2 =>
      have hct : ',' ∉ t.data := hcf t (by simp)
      have hrest : ∀ x ∈ t2 :: rest2, ',' ∉ x.data := by
        intro x hx
        exact hcf x (by simp [hx])
      have hr := ih (by simp) hrest
      simp only [splitComma] at hr
      simp only [splitComma, joinSep_comma_data]
      rw [splitCommaCh_word t.data _ hct]
      have hcons : splitCommaCh (',' :: (joinSep "," (t2 :: rest2)).data) =
          "" :: splitCommaCh (joinSep "," (t2 :: rest2)).data := by
        simp [splitCommaCh]
      rw [hcons, hr]
      simp [string_eta]

theorem normToken_vocab (t : String) (ht : t ∈ KNOWN_ALLERGENS) : normToken t = t := by
  fin_cases ht <;> decide

theorem vocab_comma_free (t : String) (ht : t ∈ KNOWN_ALLERGENS) : ',' ∉ t.data := by
  fin_cases ht <;> decide

theorem vocab_contains (t : String) (ht : t ∈ KNOWN_ALLERGENS) :
    KNOWN_ALLERGENS.contains t = true := by
  simpa using ht

theorem norm_filter_id (ts : List String) (h : ∀ t ∈ ts, t ∈ KNOWN_ALLERGENS) :
    (ts.map normToken).filter (fun v => KNOWN_ALLERGENS.contains v) = ts := by
  induction ts with
  | nil => rfl
  | cons t rest ih =>
    have ht := h t (by simp)
    have hrest : ∀ x ∈ rest, x ∈ KNOWN_ALLERGENS := fun x hx => h x (by simp [hx])
    simp only [List.map_cons, List.filter_cons, normToken_vocab t ht,
      vocab_contains t ht, if_pos]
    rw [ih hrest]

theorem leadsWith_append (p r : List Char) : leadsWith p (p ++ r) = true := by
  induction p with
  | nil => rfl
  | cons c cs ih => simp [leadsWith, ih]

theorem jsStartsWith_marker (t : String) :
    jsStartsWith "allergens_" ("allergens_" ++ t) = true := by
  rw [jsStartsWith, String.data_append]
  exact leadsWith_append _ _

theorem dropAllergensKey_marker (t : String) :
    dropAllergensKey ("allergens_" ++ t) = t := by
  rw [dropAllergensKey, String.data_append]
  have h10 : ("allergens_".data).length = 10 := by decide
  rw [← h10, List.drop_left, string_eta]

theorem lower_squash_vocab (t : String) (ht : t ∈ KNOWN_ALLERGENS) :
    replaceWSRuns (jsToLower t) = t := by
  fin_cases ht <;> decide

theorem cleanFromCheckboxes_mapped (ts : List String)
    (h : ∀ t ∈ ts, t ∈ KNOWN_ALLERGENS) :
    cleanFromCheckboxes
      ⟨"", "", "", "", "", .absent, ts.map (fun t => ("allergens_" ++ t, true))⟩ = ts := by
  induction ts with
  | nil => rfl
  | cons t rest ih =>
    have ht := h t (by simp)
    have hrest : ∀ x ∈ rest, x ∈ KNOWN_ALLERGENS := fun x hx => h x (by simp [hx])
    have hih := ih hrest
    simp only [cleanFromCheckboxes, List.map_cons, List.filter_cons] at hih ⊢
    simp only [jsStartsWith_marker t, Bool.true_and, Bool.and_true, if_pos,
      List.map_cons, dropAllergensKey_marker t, lower_squash_vocab t ht]
    rw [List.filter_cons, hih]
    simp [vocab_contains t ht, ht]

theorem normalize_arr_wins (b : Body) (xs : List String) (hb : b.allergens = .arr xs)
    (hne : ((xs.map normToken).filter (fun v => KNOWN_ALLERGENS.contains v)).length ≠ 0) :
    normalizeAllergensFromBody b =
      (xs.map normToken).filter (fun v => KNOWN_ALLERGENS.contains v) := by
  rcases b with ⟨e, n, cn, cp, lg, af, flds⟩
  simp only at hb
  subst hb
  simp only [normalizeAllergensFromBody]
  rw [if_pos hne]

theorem normalize_arr_falls (b : Body) (xs : List String) (hb : b.allergens = .arr xs)
    (hz : ((xs.map normToken).filter (fun v => KNOWN_ALLERGENS.contains v)).length = 0) :
    normalizeAllergensFromBody b = cleanFromCheckboxes b := by
  rcases b with ⟨e, n, cn, cp, lg, af, flds⟩
  simp only at hb
  subst hb
  simp only [normalizeAllergensFromBody]
  rw [if_neg (not_not_intro hz)]

theorem normalize_str_wins (b : Body) (s : String) (hb : b.allergens = .str s)
    (hne : (((splitComma s).map normToken).filter
      (fun v => KNOWN_ALLERGENS.contains v)).length ≠ 0) :
    normalizeAllergensFromBody b =
      ((splitComma s).map normToken).filter (fun v => KNOWN_ALLERGENS.contains v) := by
  rcases b with ⟨e, n, cn, cp, lg, af, flds⟩
  simp only at hb
  subst hb
  simp only [normalizeAllergensFromBody]
  rw [if_pos hne]

theorem normalize_str_falls (b : Body) (s : String) (hb : b.allergens = .str s)
    (hz : (((splitComma s).map normToken).filter
      (fun v => KNOWN_ALLERGENS.contains v)).length = 0) :
    normalizeAllergensFromBody b = cleanFromCheckboxes b := by
  rcases b with ⟨e, n, cn, cp, lg, af, flds⟩
  simp only at hb
  subst hb
  simp only [normalizeAllergensFromBody]
  rw [if_neg (not_not_intro hz)]

theorem three_shapes (ts : List String) (flds : List (String × Bool))
    (hne : ts ≠ []) (hv : ∀ t ∈ ts, t ∈ KNOWN_ALLERGENS) :
    normalizeAllergensFromBody ⟨"", "", "", "", "", .arr ts, flds⟩ = ts ∧
    normalizeAllergensFromBody ⟨"", "", "", "", "", .str (joinSep "," ts), flds⟩ = ts ∧
    normalizeAllergensFromBody
      ⟨"", "", "", "", "", .absent, ts.map (fun t => ("allergens_" ++ t, true))⟩ = ts := by
  have hfid := norm_filter_id ts hv
  have hlen : ((ts.map normToken).filter (fun v => KNOWN_ALLERGENS.contains v)).length ≠ 0 := by
    rw [hfid]
    simpa using hne
  have hsplit : splitComma (joinSep "," ts) = ts :=
    splitComma_joinSep ts hne (fun t h => vocab_comma_free t (hv t h))
  refine ⟨?_, ?_, ?_⟩
  · rw [normalize_arr_wins _ ts rfl hlen, hfid]
  · rw [normalize_str_wins _ (joinSep "," ts) rfl (by rw [hsplit, hfid]; simpa using hne)]
    rw [hsplit, hfid]
  · exact cleanFromCheckboxes_mapped ts hv

theorem mem_cleanFromCheckboxes (body : Body) (v : String)
    (hv : v ∈ cleanFromCheckboxes body) : v ∈ KNOWN_ALLERGENS := by
  have h := (List.mem_filter.mp hv).2
  simpa using h

theorem mem_normalize_vocab (body : Body) (v : String)
    (hv : v ∈ normalizeAllergensFromBody body) : v ∈ KNOWN_ALLERGENS := by
  rcases body with ⟨e, n, cn, cp, lg, af, flds⟩
  cases af with
  | arr xs =>
    simp only [normalizeAllergensFromBody] at hv
    split at hv
    · simpa using (List.mem_filter.mp hv).2
    · exact mem_cleanFromCheckboxes _ v hv
  | str s =>
    simp only [normalizeAllergensFromBody] at hv
    split at hv
    · simpa using (List.mem_filter.mp hv).2
    · exact mem_cleanFromCheckboxes _ v hv
  | absent =>
    exact mem_cleanFromCheckboxes _ v hv

theorem mem_drawnMarks_vocab (S : List String) (m : String × Nat × Nat)
    (hm : m ∈ drawnMarks S) : m.1 ∈ KNOWN_ALLERGENS := by
  have h := (List.mem_filter.mp hm).1
  fin_cases h <;> decide

set_option maxHeartbeats 1000000 in
theorem marks_eq_specAux (S : List String) : drawnMarks S = specMarks S := by
  by_cases h1 : "eggs" ∈ S <;>
  by_cases h2 : "dairy" ∈ S <;>
  by_cases h3 : "peanuts" ∈ S <;>
  by_cases h4 : "tree_nuts" ∈ S <;>
  by_cases h5 : "shellfish" ∈ S <;>
  by_cases h6 : "soy" ∈ S <;>
    simp [drawnMarks, specMarks, marks, KNOWN_ALLERGENS, List.lookup,
      List.filter_cons, List.filter_nil, List.filterMap_cons, List.filterMap_nil,
      h1, h2, h3, h4, h5, h6]

set_option maxHeartbeats 1000000 in
theorem countP_drawnAux (S : List String) (k : String) (hk : k ∈ KNOWN_ALLERGENS) :
    (drawnMarks S).countP (fun m => m.1 == k) = (if S.contains k then 1 else 0) := by
  fin_cases hk <;>
  · by_cases h1 : "eggs" ∈ S <;>
    by_cases h2 : "dairy" ∈ S <;>
    by_cases h3 : "peanuts" ∈ S <;>
    by_cases h4 : "tree_nuts" ∈ S <;>
    by_cases h5 : "shellfish" ∈ S <;>
    by_cases h6 : "soy" ∈ S <;>
      simp [drawnMarks, marks, List.filter_cons, List.filter_nil,
        List.countP_cons, List.countP_nil, h1, h2, h3, h4, h5, h6]

theorem svgMarkup_ne_empty (p : Nat × Nat) : svgMarkup p ≠ "" := by
  intro h
  have h2 := congrArg String.data h
  rw [svgMarkup] at h2
  simp [String.data_append] at h2

set_option maxHeartbeats 1000000 in
theorem svg_filterAux (S : List String) :
    (svgMarkStrings S).filter (fun s => s != "") =
      (drawnMarks S).map (fun m => svgMarkup m.2) := by
  by_cases h1 : "eggs" ∈ S <;>
  by_cases h2 : "dairy" ∈ S <;>
  by_cases h3 : "peanuts" ∈ S <;>
  by_cases h4 : "tree_nuts" ∈ S <;>
  by_cases h5 : "shellfish" ∈ S <;>
  by_cases h6 : "soy" ∈ S <;>
    simp [svgMarkStrings, drawnMarks, marks, List.filter_cons, List.filter_nil,
      h1, h2, h3, h4, h5, h6, svgMarkup_ne_empty]

theorem replaceAllCh_append (c : Char) (r x y : List Char) :
    replaceAllCh c r (x ++ y) = replaceAllCh c r x ++ replaceAllCh c r y := by
  simp [replaceAllCh]

theorem escape_chain_eq_flatMap (l : List Char) :
    replaceAllCh '>' "&gt;".data (replaceAllCh '<' "&lt;".data
      (replaceAllCh '&' "&amp;".data l)) = l.flatMap escCharSpec := by
  induction l with
  | nil => rfl
  | cons c rest ih =>
    have hsplit : (c :: rest) = [c] ++ rest := rfl
    rw [hsplit, replaceAllCh_append, replaceAllCh_append, replaceAllCh_append,
      List.flatMap_append, ih]
    congr 1
    by_cases h1 : c = '&'
    · subst h1
      decide
    by_cases h2 : c = '<'
    · subst h2
      decide
    by_cases h3 : c = '>'
    · subst h3
      decide
    simp [replaceAllCh, escCharSpec, h1, h2, h3, List.flatMap_cons]

theorem escCharSpec_no_brackets (c : Char) :
    '<' ∉ escCharSpec c ∧ '>' ∉ escCharSpec c := by
  by_cases h1 : c = '&'
  · subst h1
    decide
  by_cases h2 : c = '<'
  · subst h2
    decide
  by_cases h3 : c = '>'
  · subst h3
    decide
  simp [escCharSpec, h1, h2, h3]
  exact ⟨fun h => h2 h.symm, fun h => h3 h.symm⟩

theorem escapeHtml_eq_spec (ct : String) :
    escapeHtml ct = String.mk (ct.data.flatMap escCharSpec) := by
  rw [escapeHtml, escape_chain_eq_flatMap]

theorem escapeHtml_no_brackets (ct : String) :
    '<' ∉ (escapeHtml ct).data ∧ '>' ∉ (escapeHtml ct).data := by
  rw [escapeHtml_eq_spec]
  constructor <;>
  · intro h
    simp only [String.mk] at h
    rcases List.mem_flatMap.mp h with ⟨c, _, hc⟩
    have := escCharSpec_no_brackets c
    tauto

theorem textA_html_escaped (env : Env) (body : Body) (b : BackendResult)
    (vr : Except String Unit) (sr : Except String Unit) (s : Sent)
    (hs : s ∈ (handlerTextA env body b vr sr).sent) :
    s.html = htmlWrapA (escapeHtml (s.text.getD "")) := by
  rcases vr with mv | uv <;> rcases sr with ms | us <;>
  by_cases hv : (cleanOf body).email = "" ∨ (cleanOf body).name = "" <;>
  by_cases hsm : env.SMTP_HOST = "" ∨ env.SMTP_PORT = "" ∨ env.SMTP_USER = "" ∨
    env.SMTP_PASS = "" <;>
  by_cases hf : env.EMAIL_FROM = "" <;>
  simp_all [handlerTextA]

theorem textC_html_escaped (env : Env) (body : Body) (b : BackendResult)
    (sr : Except String Unit) (s : Sent)
    (hs : s ∈ (handlerTextC env body b sr).sent) :
    s.html = htmlWrapA (escapeHtml (s.text.getD "")) := by
  rcases sr with ms | us <;>
  by_cases hv : (cleanOf body).email = "" ∨ (cleanOf body).name = "" <;>
  simp_all [handlerTextC]

theorem from_email_ne (env : Env) : FROM_EMAIL env ≠ "" := by
  by_cases h : env.EMAIL_FROM = "" <;> simp [FROM_EMAIL, h]

theorem from_email3_ne (env : Env) : FROM_EMAIL3 env ≠ "" := by
  by_cases h : env.EMAIL_FROM = "" <;> simp [FROM_EMAIL3, h]

theorem textA_backend_err_run (env : Env) (body : Body) (m : String)
    (hemail : jsTrim body.email ≠ "") (hname : jsTrim body.name ≠ "")
    (hhost : env.SMTP_HOST ≠ "") (hport : env.SMTP_PORT ≠ "")
    (huser : env.SMTP_USER ≠ "") (hpass : env.SMTP_PASS ≠ "")
    (hfrom : env.EMAIL_FROM ≠ "") :
    (handlerTextA env body (.err m) (.ok ()) (.ok ())).status = 200 ∧
    (handlerTextA env body (.err m) (.ok ()) (.ok ())).sent.map Sent.text =
      [some (fallbackCard (cleanOf body))] := by
  have hv : ¬ ((cleanOf body).email = "" ∨ (cleanOf body).name = "") := by
    simp [cleanOf, hemail, hname]
  have hsm : ¬ (env.SMTP_HOST = "" ∨ env.SMTP_PORT = "" ∨ env.SMTP_USER = "" ∨
      env.SMTP_PASS = "") := by
    simp [hhost, hport, huser, hpass]
  by_cases hk : env.OPENAI_API_KEY = "" <;>
  simp [handlerTextA, hv, hsm, hfrom, hk]

theorem textC_backend_err_run (env : Env) (body : Body) (m : String)
    (hemail : jsTrim body.email ≠ "") (hname : jsTrim body.name ≠ "") :
    (handlerTextC env body (.err m) (.ok ())).status = 200 ∧
    (handlerTextC env body (.err m) (.ok ())).sent.map Sent.text =
      [some (fallbackCard (cleanOf body))] := by
  have hv : ¬ ((cleanOf body).email = "" ∨ (cleanOf body).name = "") := by
    simp [cleanOf, hemail, hname]
  simp [handlerTextC, hv]

theorem textB_empty_run (env : Env) (body : Body) (mid : String)
    (hkey : env.OPENAI_API_KEY ≠ "") (hhost : env.SMTP_HOST ≠ "")
    (huser : env.SMTP_USER ≠ "") (hpass : env.SMTP_PASS ≠ "")
    (hfrom : env.EMAIL_FROM ≠ "") (hemail : body.email ≠ "") :
    (handlerTextB env body (.ok "") (.ok mid)).status = 200 ∧
    (handlerTextB env body (.ok "") (.ok mid)).sent.map Sent.html =
      [htmlWrapB "Allergy card could not be generated."] := by
  have htr : jsTrim "" = "" := by decide
  simp [handlerTextB, hkey, hhost, huser, hpass, hfrom, hemail, htr]

theorem upload_no_secure_url_run (env : Env) (body : Body) (mid : Option String)
    (hemail : body.email ≠ "") :
    (handlerImgUpload env body (.ok ()) (.ok none) (.ok mid)).status = 200 ∧
    (handlerImgUpload env body (.ok ()) (.ok none) (.ok mid)).url = some none ∧
    (handlerImgUpload env body (.ok ()) (.ok none) (.ok mid)).sent.length = 1 := by
  by_cases hc : env.CLOUDINARY_CLOUD_NAME ≠ "" ∧ env.CLOUDINARY_UPLOAD_PRESET ≠ "" <;>
  simp [handlerImgUpload, hemail, hc]

theorem upload_err_run (env : Env) (body : Body) (m : String) (mid : Option String)
    (hcloud : env.CLOUDINARY_CLOUD_NAME ≠ "") (hpreset : env.CLOUDINARY_UPLOAD_PRESET ≠ "")
    (hemail : body.email ≠ "") :
    (handlerImgUpload env body (.ok ()) (.error m) (.ok mid)).status = 500 ∧
    (handlerImgUpload env body (.ok ()) (.error m) (.ok mid)).sent = [] ∧
    (handlerImgUpload env body (.ok ()) (.error m) (.ok mid)).sendAttempted = false := by
  have hc : env.CLOUDINARY_CLOUD_NAME ≠ "" ∧ env.CLOUDINARY_UPLOAD_PRESET ≠ "" :=
    ⟨hcloud, hpreset⟩
  simp [handlerImgUpload, hemail, hc]

theorem render_missing_key_run (env : Env) (body : Body) (tpl : Except String Unit)
    (send : Except String (Option String)) (hkey : env.RESEND_API_KEY = "") :
    (handlerRender env body tpl send).status = 500 ∧
    (handlerRender env body tpl send).error = some "Missing RESEND_API_KEY env var" ∧
    (handlerRender env body tpl send).sendAttempted = false := by
  simp [handlerRender, hkey]

theorem textA_missing_smtp_run (env : Env) (body : Body) (b : BackendResult)
    (vr : Except String Unit) (sr : Except String Unit)
    (hemail : jsTrim body.email ≠ "") (hname : jsTrim body.name ≠ "")
    (hsm : env.SMTP_HOST = "" ∨ env.SMTP_PORT = "" ∨ env.SMTP_USER = "" ∨
      env.SMTP_PASS = "") :
    (handlerTextA env body b vr sr).status = 500 ∧
    (handlerTextA env body b vr sr).error =
      some "Missing SMTP envs (SMTP_HOST/SMTP_PORT/SMTP_USER/SMTP_PASS)." ∧
    (handlerTextA env body b vr sr).sendAttempted = false := by
  have hv : ¬ ((cleanOf body).email = "" ∨ (cleanOf body).name = "") := by
    simp [cleanOf, hemail, hname]
  simp [handlerTextA, hv, hsm]

theorem textA_missing_from_run (env : Env) (body : Body) (b : BackendResult)
    (sr : Except String Unit)
    (hemail : jsTrim body.email ≠ "") (hname : jsTrim body.name ≠ "")
    (hhost : env.SMTP_HOST ≠ "") (hport : env.SMTP_PORT ≠ "")
    (huser : env.SMTP_USER ≠ "") (hpass : env.SMTP_PASS ≠ "")
    (hfrom : env.EMAIL_FROM = "") :
    (handlerTextA env body b (.ok ()) sr).status = 500 ∧
    (handlerTextA env body b (.ok ()) sr).error =
      some "Missing EMAIL_FROM (must be a verified sender in Brevo)." ∧
    (handlerTextA env body b (.ok ()) sr).sendAttempted = false := by
  have hv : ¬ ((cleanOf body).email = "" ∨ (cleanOf body).name = "") := by
    simp [cleanOf, hemail, hname]
  have hsm : ¬ (env.SMTP_HOST = "" ∨ env.SMTP_PORT = "" ∨ env.SMTP_USER = "" ∨
      env.SMTP_PASS = "") := by
    simp [hhost, hport, huser, hpass]
  simp [handlerTextA, hv, hsm, hfrom]

theorem textB_missing_key_run (env : Env) (body : Body) (b : BackendResult)
    (sr : Except String String) (hkey : env.OPENAI_API_KEY = "") :
    (handlerTextB env body b sr).status = 500 ∧
    (handlerTextB env body b sr).error = some "Missing OPENAI_API_KEY" ∧
    (handlerTextB env body b sr).backendCalled = false ∧
    (handlerTextB env body b sr).sendAttempted = false := by
  simp [handlerTextB, hkey]

theorem textB_missing_smtp_run (env : Env) (body : Body) (b : BackendResult)
    (sr : Except String String) (hkey : env.OPENAI_API_KEY ≠ "")
    (hsm : env.SMTP_HOST = "" ∨ env.SMTP_USER = "" ∨ env.SMTP_PASS = "" ∨
      env.EMAIL_FROM = "") :
    (handlerTextB env body b sr).status = 500 ∧
    (handlerTextB env body b sr).error = some "Missing SMTP env vars" ∧
    (handlerTextB env body b sr).backendCalled = false ∧
    (handlerTextB env body b sr).sendAttempted = false := by
  simp [handlerTextB, hkey, hsm]

theorem svg_missing_smtp_run (env : Env) (body : Body)
    (tpl : Except String (Nat × Nat)) (sr : Except String String)
    (hsm : env.SMTP_HOST = "" ∨ env.SMTP_USER = "" ∨ env.SMTP_PASS = "" ∨
      env.EMAIL_FROM = "") :
    (handlerSvg env body tpl sr).status = 500 ∧
    (handlerSvg env body tpl sr).error = some "Missing SMTP env vars" ∧
    (handlerSvg env body tpl sr).sendAttempted = false := by
  simp [handlerSvg, hsm]

theorem textC_deferred_send_run (env : Env) (body : Body) (b : BackendResult)
    (m : String)
    (hemail : jsTrim body.email ≠ "") (hname : jsTrim body.name ≠ "") :
    (handlerTextC env body b (.error m)).status = 500 ∧
    (handlerTextC env body b (.error m)).error = some "Internal error" ∧
    (handlerTextC env body b (.error m)).sendAttempted = true := by
  have hv : ¬ ((cleanOf body).email = "" ∨ (cleanOf body).name = "") := by
    simp [cleanOf, hemail, hname]
  simp [handlerTextC, hv]

theorem imgUpload_deferred_send_run (env : Env) (body : Body) (m : String)
    (hemail : body.email ≠ "") :
    (handlerImgUpload env body (.ok ()) (.ok none) (.error m)).status = 500 ∧
    (handlerImgUpload env body (.ok ()) (.ok none) (.error m)).error =
      some "Render or email failed" ∧
    (handlerImgUpload env body (.ok ()) (.ok none) (.error m)).sendAttempted = true := by
  by_cases hc : env.CLOUDINARY_CLOUD_NAME ≠ "" ∧ env.CLOUDINARY_UPLOAD_PRESET ≠ "" <;>
  simp [handlerImgUpload, hemail, hc]

theorem render_400_run (env : Env) (body : Body) (tpl : Except String Unit)
    (send : Except String (Option String)) (hkey : env.RESEND_API_KEY ≠ "")
    (hmail : body.email = "") :
    (handlerRender env body tpl send).status = 400 ∧
    (handlerRender env body tpl send).error = some "Missing recipient email" ∧
    (handlerRender env body tpl send).sendAttempted = false ∧
    (handlerRender env body tpl send).sent = [] := by
  simp [handlerRender, hkey, from_email_ne env, hmail]

theorem textA_400_run (env : Env) (body : Body) (b : BackendResult)
    (vr : Except String Unit) (sr : Except String Unit)
    (hmiss : jsTrim body.email = "" ∨ jsTrim body.name = "") :
    (handlerTextA env body b vr sr).status = 400 ∧
    (handlerTextA env body b vr sr).error =
      some "Missing required fields: name, email" ∧
    (handlerTextA env body b vr sr).backendCalled = false ∧
    (handlerTextA env body b vr sr).sendAttempted = false ∧
    (handlerTextA env body b vr sr).sent = [] := by
  have hv : (cleanOf body).email = "" ∨ (cleanOf body).name = "" := by
    simpa [cleanOf] using hmiss
  simp [handlerTextA, hv]

theorem textB_400_run (env : Env) (body : Body) (b : BackendResult)
    (sr : Except String String) (hkey : env.OPENAI_API_KEY ≠ "")
    (hhost : env.SMTP_HOST ≠ "") (huser : env.SMTP_USER ≠ "")
    (hpass : env.SMTP_PASS ≠ "") (hfrom : env.EMAIL_FROM ≠ "")
    (hmail : body.email = "") :
    (handlerTextB env body b sr).status = 400 ∧
    (handlerTextB env body b sr).error = some "Missing recipient email" ∧
    (handlerTextB env body b sr).backendCalled = false ∧
    (handlerTextB env body b sr).sendAttempted = false ∧
    (handlerTextB env body b sr).sent = [] := by
  simp [handlerTextB, hkey, hhost, huser, hpass, hfrom, hmail]

theorem textC_400_run (env : Env) (body : Body) (b : BackendResult)
    (sr : Except String Unit)
    (hmiss : jsTrim body.email = "" ∨ jsTrim body.name = "") :
    (handlerTextC env body b sr).status = 400 ∧
    (handlerTextC env body b sr).error =
      some "Missing required fields: name, email" ∧
    (handlerTextC env body b sr).backendCalled = false ∧
    (handlerTextC env body b sr).sendAttempted = false ∧
    (handlerTextC env body b sr).sent = [] := by
  have hv : (cleanOf body).email = "" ∨ (cleanOf body).name = "" := by
    simpa [cleanOf] using hmiss
  simp [handlerTextC, hv]

theorem svg_400_run (env : Env) (body : Body) (tpl : Except String (Nat × Nat))
    (sr : Except String String)
    (hhost : env.SMTP_HOST ≠ "") (huser : env.SMTP_USER ≠ "")
    (hpass : env.SMTP_PASS ≠ "") (hfrom : env.EMAIL_FROM ≠ "")
    (hmail : body.email = "") :
    (handlerSvg env body tpl sr).status = 400 ∧
    (handlerSvg env body tpl sr).error = some "Missing recipient email" ∧
    (handlerSvg env body tpl sr).sendAttempted = false ∧
    (handlerSvg env body tpl sr).sent = [] := by
  have hsm : ¬ (env.SMTP_HOST = "" ∨ env.SMTP_USER = "" ∨ env.SMTP_PASS = "" ∨
      env.EMAIL_FROM = "") := by
    simp [hhost, huser, hpass, hfrom]
  simp [handlerSvg, hsm, hmail]

theorem imgUpload_400_run (env : Env) (body : Body) (tpl : Except String Unit)
    (up : Except String (Option String)) (send : Except String (Option String))
    (hmail : body.email = "") :
    (handlerImgUpload env body tpl up send).status = 400 ∧
    (handlerImgUpload env body tpl up send).error = some "Missing recipient email" ∧
    (handlerImgUpload env body tpl up send).sendAttempted = false ∧
    (handlerImgUpload env body tpl up send).sent = [] := by
  simp [handlerImgUpload, hmail]

theorem render_default_from_run (env : Env) (body : Body) (mid : Option String)
    (hunset : env.EMAIL_FROM = "") (hkey : env.RESEND_API_KEY ≠ "")
    (hemail : body.email ≠ "") :
    (handlerRender env body (.ok ()) (.ok mid)).status = 200 ∧
    (handlerRender env body (.ok ()) (.ok mid)).sent.map Sent.sender =
      ["Jaylen <jaylen@onresend.com>"] := by
  simp [handlerRender, hkey, from_email_ne env, hemail, FROM_EMAIL, hunset]

theorem imgUpload_default_from_run (env : Env) (body : Body) (mid : Option String)
    (hunset : env.EMAIL_FROM = "") (hemail : body.email ≠ "") :
    (handlerImgUpload env body (.ok ()) (.ok none) (.ok mid)).status = 200 ∧
    (handlerImgUpload env body (.ok ()) (.ok none) (.ok mid)).sent.map Sent.sender =
      ["no-reply@example.com"] := by
  by_cases hc : env.CLOUDINARY_CLOUD_NAME ≠ "" ∧ env.CLOUDINARY_UPLOAD_PRESET ≠ "" <;>
  simp [handlerImgUpload, hemail, hc, FROM_EMAIL3, hunset]

theorem normalizeLanguage_supported (lang : String) :
    SUPPORTED_LANGS.contains (normalizeLanguage lang) = true := by
  by_cases h : jsToLower (jsTrim lang) ∈ SUPPORTED_LANGS
  · simp [normalizeLanguage, h]
  · simp [normalizeLanguage, h]
    decide

theorem renderNormalizeLanguage_supported (lang : String) :
    SUPPORTED_LANGS.contains (renderNormalizeLanguage lang) = true := by
  by_cases h : jsToLower (if lang = "" then "en" else lang) ∈ SUPPORTED_LANGS
  · simp [renderNormalizeLanguage, h]
  · simp [renderNormalizeLanguage, h]
    decide

theorem render_eq_claimed_of_trimmed (lang : String) (h : jsTrim lang = lang) :
    renderNormalizeLanguage lang = claimedNormalizeLanguage lang := by
  by_cases h0 : lang = ""
  · subst h0
    decide
  · unfold renderNormalizeLanguage claimedNormalizeLanguage
    rw [h]
    simp [h0]

theorem langB_eq_render (lang : String) : langB lang = renderNormalizeLanguage lang := by
  by_cases h0 : lang = ""
  · subst h0
    decide
  · simp [langB, renderNormalizeLanguage, h0]

theorem textA_backend_empty_run (env : Env) (body : Body) (t : String)
    (ht : jsTrim t = "")
    (hemail : jsTrim body.email ≠ "") (hname : jsTrim body.name ≠ "")
    (hhost : env.SMTP_HOST ≠ "") (hport : env.SMTP_PORT ≠ "")
    (huser : env.SMTP_USER ≠ "") (hpass : env.SMTP_PASS ≠ "")
    (hfrom : env.EMAIL_FROM ≠ "") :
    (handlerTextA env body (.ok t) (.ok ()) (.ok ())).status = 200 ∧
    (handlerTextA env body (.ok t) (.ok ()) (.ok ())).sent.map Sent.text =
      [some (fallbackCard (cleanOf body))] := by
  have hv : ¬ ((cleanOf body).email = "" ∨ (cleanOf body).name = "") := by
    simp [cleanOf, hemail, hname]
  have hsm : ¬ (env.SMTP_HOST = "" ∨ env.SMTP_PORT = "" ∨ env.SMTP_USER = "" ∨
      env.SMTP_PASS = "") := by
    simp [hhost, hport, huser, hpass]
  by_cases hk : env.OPENAI_API_KEY = "" <;>
  simp [handlerTextA, hv, hsm, hfrom, hk, ht]

theorem textC_backend_empty_run (env : Env) (body : Body) (t : String)
    (ht : jsTrim t = "")
    (hemail : jsTrim body.email ≠ "") (hname : jsTrim body.name ≠ "") :
    (handlerTextC env body (.ok t) (.ok ())).status = 200 ∧
    (handlerTextC env body (.ok t) (.ok ())).sent.map Sent.text =
      [some (fallbackCard (cleanOf body))] := by
  have hv : ¬ ((cleanOf body).email = "" ∨ (cleanOf body).name = "") := by
    simp [cleanOf, hemail, hname]
  simp [handlerTextC, hv, ht]

/-! ## Claims -/

/-- Claim C1: for every normalized allergen set, the overlay compositor draws
exactly one X mark per vocabulary allergen present, at that allergen's fixed
coordinate from the static layout, draws nothing for absent allergens, and
ignores tags with no layout entry: the executed draw calls coincide with the
spec-side `specMarks`, the per-tag draw count is 1 or 0 according to
presence, and the SVG builder emits exactly the same marks. -/
theorem claim_overlay_marks (S : List String) (k : String)
    (hk : k ∈ KNOWN_ALLERGENS) :
    drawnMarks S = specMarks S ∧
    (drawnMarks S).countP (fun m => m.1 == k) = (if S.contains k then 1 else 0) ∧
    (svgMarkStrings S).filter (fun s => s != "") =
      (drawnMarks S).map (fun m => svgMarkup m.2) :=
  ⟨marks_eq_specAux S, countP_drawnAux S k hk, svg_filterAux S⟩

/-- Witness for C1 at the spec's own example `{peanuts, soy}`. -/
theorem claim_overlay_marks_witness :
    drawnMarks ["peanuts", "soy"] = specMarks ["peanuts", "soy"] ∧
    (drawnMarks ["peanuts", "soy"]).countP (fun m => m.1 == "peanuts") =
      (if (["peanuts", "soy"] : List String).contains "peanuts" then 1 else 0) ∧
    (svgMarkStrings ["peanuts", "soy"]).filter (fun s => s != "") =
      (drawnMarks ["peanuts", "soy"]).map (fun m => svgMarkup m.2) :=
  claim_overlay_marks ["peanuts", "soy"] "peanuts" (by decide)

/-- Counterexample to C2 as stated: in the canvas image handlers the string
shape is split and lowercased but never filtered to the vocabulary, so the
unrecognized token `bogus` reaches the render step; and the normalizer of
the text variants preserves duplicates, so `["eggs","eggs"]` normalizes to a
list that is not a set. -/
theorem claim_vocab_subset_cex :
    ("bogus" ∈ renderAllergenList (.str "bogus, dairy") ∧
     "bogus" ∉ KNOWN_ALLERGENS) ∧
    (normalizeAllergensFromBody ⟨"", "", "", "", "", .arr ["eggs", "eggs"], []⟩ =
       ["eggs", "eggs"] ∧
     ¬ (normalizeAllergensFromBody
         ⟨"", "", "", "", "", .arr ["eggs", "eggs"], []⟩).Nodup) := by
  decide

/-- Claim C2, amended: in the variants that use `normalizeAllergensFromBody`
every element of the normalized list lies in the six-tag vocabulary
(duplicates are preserved, and the canvas variants do not filter at all),
and the draw loop itself only ever draws layout keys, so non-vocabulary
tokens still produce no marks. -/
theorem claim_vocab_subset_amended :
    (∀ (body : Body) (v : String),
      v ∈ normalizeAllergensFromBody body → v ∈ KNOWN_ALLERGENS) ∧
    (∀ (S : List String) (m : String × Nat × Nat),
      m ∈ drawnMarks S → m.1 ∈ KNOWN_ALLERGENS) :=
  ⟨mem_normalize_vocab, mem_drawnMarks_vocab⟩

/-- Witness for C2 (amended) at concrete inputs. -/
theorem claim_vocab_subset_witness :
    ("eggs" ∈ normalizeAllergensFromBody bodyJo ∧ "eggs" ∈ KNOWN_ALLERGENS) ∧
    (("soy", 870, 380) ∈ drawnMarks ["soy"] ∧
     ("soy", (870 : Nat), (380 : Nat)).1 ∈ KNOWN_ALLERGENS) :=
  ⟨⟨by decide, claim_vocab_subset_amended.1 bodyJo "eggs" (by decide)⟩,
   ⟨by decide, claim_vocab_subset_amended.2 ["soy"] ("soy", 870, 380) (by decide)⟩⟩

/-- Claim C3: the three accepted input shapes for a non-empty list of
vocabulary tags (array, comma-joined string, `allergens_<tag>` checkbox
fields) normalize to the identical canonical list; and the shapes are tried
in order with the first non-empty normalized result winning (an
array/string whose normalization is empty falls through to the checkbox
scan). -/
theorem claim_shape_agreement (ts : List String) (flds : List (String × Bool))
    (hne : ts ≠ []) (hv : ∀ t ∈ ts, t ∈ KNOWN_ALLERGENS) :
    (normalizeAllergensFromBody ⟨"", "", "", "", "", .arr ts, flds⟩ = ts ∧
     normalizeAllergensFromBody ⟨"", "", "", "", "", .str (joinSep "," ts), flds⟩ = ts ∧
     normalizeAllergensFromBody
       ⟨"", "", "", "", "", .absent, ts.map (fun t => ("allergens_" ++ t, true))⟩ = ts) ∧
    (∀ (b : Body) (xs : List String), b.allergens = .arr xs →
      ((xs.map normToken).filter (fun v => KNOWN_ALLERGENS.contains v)).length ≠ 0 →
      normalizeAllergensFromBody b =
        (xs.map normToken).filter (fun v => KNOWN_ALLERGENS.contains v)) ∧
    (∀ (b : Body) (xs : List String), b.allergens = .arr xs →
      ((xs.map normToken).filter (fun v => KNOWN_ALLERGENS.contains v)).length = 0 →
      normalizeAllergensFromBody b = cleanFromCheckboxes b) ∧
    (∀ (b : Body) (s : String), b.allergens = .str s →
      (((splitComma s).map normToken).filter
        (fun v => KNOWN_ALLERGENS.contains v)).length ≠ 0 →
      normalizeAllergensFromBody b =
        ((splitComma s).map normToken).filter (fun v => KNOWN_ALLERGENS.contains v)) ∧
    (∀ (b : Body) (s : String), b.allergens = .str s →
      (((splitComma s).map normToken).filter
        (fun v => KNOWN_ALLERGENS.contains v)).length = 0 →
      normalizeAllergensFromBody b = cleanFromCheckboxes b) :=
  ⟨three_shapes ts flds hne hv, normalize_arr_wins, normalize_arr_falls,
   normalize_str_wins, normalize_str_falls⟩

/-- Witness for C3 at the tag list `["eggs", "dairy"]`. -/
theorem claim_shape_agreement_witness :
    normalizeAllergensFromBody ⟨"", "", "", "", "", .arr ["eggs", "dairy"], []⟩ =
      ["eggs", "dairy"] ∧
    normalizeAllergensFromBody
      ⟨"", "", "", "", "", .str (joinSep "," ["eggs", "dairy"]), []⟩ =
      ["eggs", "dairy"] ∧
    normalizeAllergensFromBody
      ⟨"", "", "", "", "", .absent,
       (["eggs", "dairy"]).map (fun t => ("allergens_" ++ t, true))⟩ =
      ["eggs", "dairy"] :=
  (claim_shape_agreement ["eggs", "dairy"] [] (by decide) (by decide)).1

/-- Counterexample to C4 as stated: in the second text variant a thrown
backend error is not caught locally — it reaches the catch-all, so the
handler returns 500, surfaces the backend message, and sends no email. -/
theorem claim_backend_caught_cex :
    (handlerTextB envFull bodyJo (.err "boom") (.ok "mid")).status = 500 ∧
    (handlerTextB envFull bodyJo (.err "boom") (.ok "mid")).error = some "boom" ∧
    (handlerTextB envFull bodyJo (.err "boom") (.ok "mid")).sendAttempted = false ∧
    (handlerTextB envFull bodyJo (.err "boom") (.ok "mid")).sent = [] := by
  decide

/-- Claim C4, amended: in the two text variants with a local try/catch
(part_000 first handler and part_002) any backend error — a thrown error or
an empty response, which the resolver turns into a thrown
`OpenAI returned empty content` — is caught, the deterministic
`fallbackCard` text is substituted, the email is still sent and 200 is
returned; in the remaining text variant only an empty backend response is
recovered (with a fixed placeholder string), while a thrown error
propagates (see the counterexample). -/
theorem claim_backend_caught_amended (env : Env) (body : Body) (m : String)
    (mid : String) (t : String) (hempty : jsTrim t = "")
    (hemail : jsTrim body.email ≠ "") (hname : jsTrim body.name ≠ "")
    (hkey : env.OPENAI_API_KEY ≠ "")
    (hhost : env.SMTP_HOST ≠ "") (hport : env.SMTP_PORT ≠ "")
    (huser : env.SMTP_USER ≠ "") (hpass : env.SMTP_PASS ≠ "")
    (hfrom : env.EMAIL_FROM ≠ "") :
    ((handlerTextA env body (.err m) (.ok ()) (.ok ())).status = 200 ∧
     (handlerTextA env body (.err m) (.ok ()) (.ok ())).sent.map Sent.text =
       [some (fallbackCard (cleanOf body))]) ∧
    ((handlerTextA env body (.ok t) (.ok ()) (.ok ())).status = 200 ∧
     (handlerTextA env body (.ok t) (.ok ()) (.ok ())).sent.map Sent.text =
       [some (fallbackCard (cleanOf body))]) ∧
    ((handlerTextC env body (.err m) (.ok ())).status = 200 ∧
     (handlerTextC env body (.err m) (.ok ())).sent.map Sent.text =
       [some (fallbackCard (cleanOf body))]) ∧
    ((handlerTextC env body (.ok t) (.ok ())).status = 200 ∧
     (handlerTextC env body (.ok t) (.ok ())).sent.map Sent.text =
       [some (fallbackCard (cleanOf body))]) ∧
    ((handlerTextB env body (.ok "") (.ok mid)).status = 200 ∧
     (handlerTextB env body (.ok "") (.ok mid)).sent.map Sent.html =
       [htmlWrapB "Allergy card could not be generated."]) := by
  have hB : body.email ≠ "" := fun h => hemail (by rw [h]; decide)
  exact ⟨textA_backend_err_run env body m hemail hname hhost hport huser hpass hfrom,
    textA_backend_empty_run env body t hempty hemail hname hhost hport huser hpass
      hfrom,
    textC_backend_err_run env body m hemail hname,
    textC_backend_empty_run env body t hempty hemail hname,
    textB_empty_run env body mid hkey hhost huser hpass hfrom hB⟩

/-- Witness for C4 (amended) on a concrete configured run, with the thrown
error `boom` and the empty backend response `" "`. -/
theorem claim_backend_caught_witness :
    ((handlerTextA envFull bodyJo (.err "boom") (.ok ()) (.ok ())).status = 200 ∧
     (handlerTextA envFull bodyJo (.err "boom") (.ok ()) (.ok ())).sent.map Sent.text =
       [some (fallbackCard (cleanOf bodyJo))]) ∧
    ((handlerTextA envFull bodyJo (.ok " ") (.ok ()) (.ok ())).status = 200 ∧
     (handlerTextA envFull bodyJo (.ok " ") (.ok ()) (.ok ())).sent.map Sent.text =
       [some (fallbackCard (cleanOf bodyJo))]) ∧
    ((handlerTextC envFull bodyJo (.err "boom") (.ok ())).status = 200 ∧
     (handlerTextC envFull bodyJo (.err "boom") (.ok ())).sent.map Sent.text =
       [some (fallbackCard (cleanOf bodyJo))]) ∧
    ((handlerTextC envFull bodyJo (.ok " ") (.ok ())).status = 200 ∧
     (handlerTextC envFull bodyJo (.ok " ") (.ok ())).sent.map Sent.text =
       [some (fallbackCard (cleanOf bodyJo))]) ∧
    ((handlerTextB envFull bodyJo (.ok "") (.ok "mid")).status = 200 ∧
     (handlerTextB envFull bodyJo (.ok "") (.ok "mid")).sent.map Sent.html =
       [htmlWrapB "Allergy card could not be generated."]) :=
  claim_backend_caught_amended envFull bodyJo "boom" "mid" " " (by decide)
    (by decide) (by decide) (by decide) (by decide) (by decide) (by decide)
    (by decide) (by decide)

/-- Counterexample to C5 as stated: the Cloudinary upload block has no local
try/catch, so a thrown fetch/JSON error reaches the catch-all: the request
fails with 500 and no email is sent. -/
theorem claim_upload_best_effort_cex :
    (handlerImgUpload envFull bodyJo (.ok ()) (.error "fetch failed")
      (.ok (some "u"))).status = 500 ∧
    (handlerImgUpload envFull bodyJo (.ok ()) (.error "fetch failed")
      (.ok (some "u"))).sent = [] ∧
    (handlerImgUpload envFull bodyJo (.ok ()) (.error "fetch failed")
      (.ok (some "u"))).sendAttempted = false := by
  decide

/-- Claim C5, amended: only the missing-`secure_url` form of upload failure
is tolerated — the email is still sent, 200 is returned, and `url` is null;
a thrown network/JSON-parse error from the upload step propagates to the
catch-all, returning 500 with no email sent. -/
theorem claim_upload_best_effort_amended (env : Env) (body : Body)
    (mid : Option String) (m : String)
    (hcloud : env.CLOUDINARY_CLOUD_NAME ≠ "")
    (hpreset : env.CLOUDINARY_UPLOAD_PRESET ≠ "")
    (hemail : body.email ≠ "") :
    ((handlerImgUpload env body (.ok ()) (.ok none) (.ok mid)).status = 200 ∧
     (handlerImgUpload env body (.ok ()) (.ok none) (.ok mid)).url = some none ∧
     (handlerImgUpload env body (.ok ()) (.ok none) (.ok mid)).sent.length = 1) ∧
    ((handlerImgUpload env body (.ok ()) (.error m) (.ok mid)).status = 500 ∧
     (handlerImgUpload env body (.ok ()) (.error m) (.ok mid)).sent = [] ∧
     (handlerImgUpload env body (.ok ()) (.error m) (.ok mid)).sendAttempted = false) :=
  ⟨upload_no_secure_url_run env body mid hemail,
   upload_err_run env body m mid hcloud hpreset hemail⟩

/-- Witness for C5 (amended) on a concrete configured run. -/
theorem claim_upload_best_effort_witness :
    ((handlerImgUpload envFull bodyJo (.ok ()) (.ok none) (.ok (some "u"))).status = 200 ∧
     (handlerImgUpload envFull bodyJo (.ok ()) (.ok none) (.ok (some "u"))).url =
       some none ∧
     (handlerImgUpload envFull bodyJo (.ok ()) (.ok none)
       (.ok (some "u"))).sent.length = 1) ∧
    ((handlerImgUpload envFull bodyJo (.ok ()) (.error "net") (.ok (some "u"))).status =
       500 ∧
     (handlerImgUpload envFull bodyJo (.ok ()) (.error "net") (.ok (some "u"))).sent =
       [] ∧
     (handlerImgUpload envFull bodyJo (.ok ()) (.error "net")
       (.ok (some "u"))).sendAttempted = false) :=
  claim_upload_best_effort_amended envFull bodyJo (some "u") "net" (by decide)
    (by decide) (by decide)

set_option maxRecDepth 40000 in
/-- Counterexample to C6 as stated: the second text variant interpolates the
card text into its HTML body with no escaping, so `a & b <x>` appears raw in
the outgoing HTML (and its escaped form does not appear). -/
theorem claim_html_escaping_cex :
    (handlerTextB envFull bodyJo (.ok "a & b <x>") (.ok "mid")).sent.map Sent.html =
      [htmlWrapB "a & b <x>"] ∧
    hasSub "a & b <x>".data (htmlWrapB "a & b <x>").data = true ∧
    hasSub (escapeHtml "a & b <x>").data (htmlWrapB "a & b <x>").data = false ∧
    escapeHtml "a & b <x>" ≠ "a & b <x>" := by
  decide

/-- Claim C6, amended: in the two text variants that escape (part_000 first
handler and part_002) the card text goes through the `&`/`<`/`>` escaper
before interpolation — the escaper agrees with the character-wise spec map
and its output contains no raw angle brackets — while the remaining text
variant interpolates the card text unescaped (see the counterexample). -/
theorem claim_html_escaping_amended (ct : String) :
    ('<' ∉ (escapeHtml ct).data ∧ '>' ∉ (escapeHtml ct).data) ∧
    escapeHtml ct = String.mk (ct.data.flatMap escCharSpec) ∧
    (∀ (env : Env) (body : Body) (b : BackendResult) (vr sr : Except String Unit)
      (s : Sent), s ∈ (handlerTextA env body b vr sr).sent →
        s.html = htmlWrapA (escapeHtml (s.text.getD ""))) ∧
    (∀ (env : Env) (body : Body) (b : BackendResult) (sr : Except String Unit)
      (s : Sent), s ∈ (handlerTextC env body b sr).sent →
        s.html = htmlWrapA (escapeHtml (s.text.getD ""))) :=
  ⟨escapeHtml_no_brackets ct, escapeHtml_eq_spec ct, textA_html_escaped,
   textC_html_escaped⟩

/-- Witness for C6 (amended): the escaper output for `a & b <x>` has no raw
brackets, and the message sent by a concrete first-variant run embeds the
escaped card text. -/
theorem claim_html_escaping_witness :
    ('<' ∉ (escapeHtml "a & b <x>").data ∧ '>' ∉ (escapeHtml "a & b <x>").data) ∧
    (⟨"cards@example.com", "a@b.com", "Allergy Card for Jo",
      htmlWrapA (escapeHtml "hi"), some "hi", []⟩ : Sent).html =
      htmlWrapA (escapeHtml ((⟨"cards@example.com", "a@b.com",
        "Allergy Card for Jo", htmlWrapA (escapeHtml "hi"), some "hi", []⟩ :
          Sent).text.getD "")) :=
  ⟨(claim_html_escaping_amended "a & b <x>").1,
   (claim_html_escaping_amended "hi").2.2.1 envFull bodyJo (.ok "hi") (.ok ())
     (.ok ()) _ (by decide)⟩

/-- Counterexample to C7 as stated: the canvas image handlers lowercase the
language but do not trim it, so the supported code ` fr` (with whitespace)
silently defaults to `en` instead of passing through as the claim's
trim-then-lowercase normalization would. -/
theorem claim_language_defaulting_cex :
    renderNormalizeLanguage " fr" = "en" ∧
    claimedNormalizeLanguage " fr" = "fr" ∧
    normalizeLanguage " fr" = "fr" := by
  decide

/-- Claim C7, amended: `normalizeLanguage` of the text variants trims,
lowercases, passes supported codes through and silently defaults to `en`,
exactly as claimed; the inline selection of the image variants agrees with
the claimed normalization only on inputs with no surrounding whitespace
(it lowercases without trimming), and every variant always returns a
supported code, never an error. -/
theorem claim_language_defaulting_amended (lang : String) :
    normalizeLanguage lang = claimedNormalizeLanguage lang ∧
    SUPPORTED_LANGS.contains (normalizeLanguage lang) = true ∧
    SUPPORTED_LANGS.contains (renderNormalizeLanguage lang) = true ∧
    (jsTrim lang = lang →
      renderNormalizeLanguage lang = claimedNormalizeLanguage lang) ∧
    langB lang = renderNormalizeLanguage lang :=
  ⟨rfl, normalizeLanguage_supported lang, renderNormalizeLanguage_supported lang,
   render_eq_claimed_of_trimmed lang, langB_eq_render lang⟩

/-- Witness for C7 (amended) at the already-trimmed input `FR`. -/
theorem claim_language_defaulting_witness :
    normalizeLanguage "FR" = claimedNormalizeLanguage "FR" ∧
    jsTrim "FR" = "FR" ∧
    renderNormalizeLanguage "FR" = claimedNormalizeLanguage "FR" :=
  ⟨(claim_language_defaulting_amended "FR").1, by decide,
   (claim_language_defaulting_amended "FR").2.2.2.1 (by decide)⟩

/-- Counterexample to C8 as stated: part_002 performs no request-time check of
the SMTP credentials — with `SMTP_HOST` absent the handler still reaches the
send call, and the resulting 500 carries the generic message
`Internal error`, naming no configuration. -/
theorem claim_config_errors_cex :
    (handlerTextC envNoSmtpHost bodyJo (.ok "card")
      (.error "connect ECONNREFUSED")).status = 500 ∧
    (handlerTextC envNoSmtpHost bodyJo (.ok "card")
      (.error "connect ECONNREFUSED")).error = some "Internal error" ∧
    (handlerTextC envNoSmtpHost bodyJo (.ok "card")
      (.error "connect ECONNREFUSED")).sendAttempted = true := by
  decide

/-- Claim C8, amended: the Resend image handler, the first and second text
handlers and the SVG handler detect missing credentials at request time and
return a 500 naming the missing configuration, before any send is handed to
the mail library; part_002 and part_003, however, perform no such check —
the failure surfaces from the send (or upload) call itself with a generic
message. -/
theorem claim_config_errors_amended :
    (∀ (env : Env) (body : Body) (tpl : Except String Unit)
      (send : Except String (Option String)), env.RESEND_API_KEY = "" →
        (handlerRender env body tpl send).status = 500 ∧
        (handlerRender env body tpl send).error =
          some "Missing RESEND_API_KEY env var" ∧
        (handlerRender env body tpl send).sendAttempted = false) ∧
    (∀ (env : Env) (body : Body) (b : BackendResult) (vr sr : Except String Unit),
      jsTrim body.email ≠ "" → jsTrim body.name ≠ "" →
      (env.SMTP_HOST = "" ∨ env.SMTP_PORT = "" ∨ env.SMTP_USER = "" ∨
        env.SMTP_PASS = "") →
        (handlerTextA env body b vr sr).status = 500 ∧
        (handlerTextA env body b vr sr).error =
          some "Missing SMTP envs (SMTP_HOST/SMTP_PORT/SMTP_USER/SMTP_PASS)." ∧
        (handlerTextA env body b vr sr).sendAttempted = false) ∧
    (∀ (env : Env) (body : Body) (b : BackendResult) (sr : Except String Unit),
      jsTrim body.email ≠ "" → jsTrim body.name ≠ "" →
      env.SMTP_HOST ≠ "" → env.SMTP_PORT ≠ "" → env.SMTP_USER ≠ "" →
      env.SMTP_PASS ≠ "" → env.EMAIL_FROM = "" →
        (handlerTextA env body b (.ok ()) sr).status = 500 ∧
        (handlerTextA env body b (.ok ()) sr).error =
          some "Missing EMAIL_FROM (must be a verified sender in Brevo)." ∧
        (handlerTextA env body b (.ok ()) sr).sendAttempted = false) ∧
    (∀ (env : Env) (body : Body) (b : BackendResult) (sr : Except String String),
      env.OPENAI_API_KEY = "" →
        (handlerTextB env body b sr).status = 500 ∧
        (handlerTextB env body b sr).error = some "Missing OPENAI_API_KEY" ∧
        (handlerTextB env body b sr).backendCalled = false ∧
        (handlerTextB env body b sr).sendAttempted = false) ∧
    (∀ (env : Env) (body : Body) (b : BackendResult) (sr : Except String String),
      env.OPENAI_API_KEY ≠ "" →
      (env.SMTP_HOST = "" ∨ env.SMTP_USER = "" ∨ env.SMTP_PASS = "" ∨
        env.EMAIL_FROM = "") →
        (handlerTextB env body b sr).status = 500 ∧
        (handlerTextB env body b sr).error = some "Missing SMTP env vars" ∧
        (handlerTextB env body b sr).backendCalled = false ∧
        (handlerTextB env body b sr).sendAttempted = false) ∧
    (∀ (env : Env) (body : Body) (tpl : Except String (Nat × Nat))
      (sr : Except String String),
      (env.SMTP_HOST = "" ∨ env.SMTP_USER = "" ∨ env.SMTP_PASS = "" ∨
        env.EMAIL_FROM = "") →
        (handlerSvg env body tpl sr).status = 500 ∧
        (handlerSvg env body tpl sr).error = some "Missing SMTP env vars" ∧
        (handlerSvg env body tpl sr).sendAttempted = false) ∧
    (∀ (env : Env) (body : Body) (b : BackendResult) (m : String),
      jsTrim body.email ≠ "" → jsTrim body.name ≠ "" →
        (handlerTextC env body b (.error m)).status = 500 ∧
        (handlerTextC env body b (.error m)).error = some "Internal error" ∧
        (handlerTextC env body b (.error m)).sendAttempted = true) ∧
    (∀ (env : Env) (body : Body) (m : String), body.email ≠ "" →
        (handlerImgUpload env body (.ok ()) (.ok none) (.error m)).status = 500 ∧
        (handlerImgUpload env body (.ok ()) (.ok none) (.error m)).error =
          some "Render or email failed" ∧
        (handlerImgUpload env body (.ok ()) (.ok none) (.error m)).sendAttempted =
          true) :=
  ⟨fun env body tpl send h => render_missing_key_run env body tpl send h,
   fun env body b vr sr he hn hsm => textA_missing_smtp_run env body b vr sr he hn hsm,
   fun env body b sr he hn h1 h2 h3 h4 hf =>
     textA_missing_from_run env body b sr he hn h1 h2 h3 h4 hf,
   fun env body b sr h => textB_missing_key_run env body b sr h,
   fun env body b sr hk hsm => textB_missing_smtp_run env body b sr hk hsm,
   fun env body tpl sr hsm => svg_missing_smtp_run env body tpl sr hsm,
   fun env body b m he hn => textC_deferred_send_run env body b m he hn,
   fun env body m he => imgUpload_deferred_send_run env body m he⟩

/-- Witness for C8 (amended): each clause instantiated at a concrete
environment missing the relevant credential. -/
theorem claim_config_errors_witness :
    ((handlerRender ⟨"sk", "h", "587", "u", "p", "f@x", "", "", ""⟩ bodyJo (.ok ())
       (.ok none)).status = 500 ∧
     (handlerRender ⟨"sk", "h", "587", "u", "p", "f@x", "", "", ""⟩ bodyJo (.ok ())
       (.ok none)).error = some "Missing RESEND_API_KEY env var" ∧
     (handlerRender ⟨"sk", "h", "587", "u", "p", "f@x", "", "", ""⟩ bodyJo (.ok ())
       (.ok none)).sendAttempted = false) ∧
    ((handlerTextA envNoSmtpHost bodyJo (.ok "t") (.ok ()) (.ok ())).status = 500 ∧
     (handlerTextA envNoSmtpHost bodyJo (.ok "t") (.ok ()) (.ok ())).error =
       some "Missing SMTP envs (SMTP_HOST/SMTP_PORT/SMTP_USER/SMTP_PASS)." ∧
     (handlerTextA envNoSmtpHost bodyJo (.ok "t") (.ok ()) (.ok ())).sendAttempted =
       false) ∧
    ((handlerTextA envNoFrom bodyJo (.ok "t") (.ok ()) (.ok ())).status = 500 ∧
     (handlerTextA envNoFrom bodyJo (.ok "t") (.ok ()) (.ok ())).error =
       some "Missing EMAIL_FROM (must be a verified sender in Brevo)." ∧
     (handlerTextA envNoFrom bodyJo (.ok "t") (.ok ()) (.ok ())).sendAttempted =
       false) ∧
    ((handlerTextB ⟨"", "h", "587", "u", "p", "f@x", "", "", ""⟩ bodyJo (.ok "t")
       (.ok "m")).status = 500 ∧
     (handlerTextB ⟨"", "h", "587", "u", "p", "f@x", "", "", ""⟩ bodyJo (.ok "t")
       (.ok "m")).error = some "Missing OPENAI_API_KEY" ∧
     (handlerTextB ⟨"", "h", "587", "u", "p", "f@x", "", "", ""⟩ bodyJo (.ok "t")
       (.ok "m")).backendCalled = false ∧
     (handlerTextB ⟨"", "h", "587", "u", "p", "f@x", "", "", ""⟩ bodyJo (.ok "t")
       (.ok "m")).sendAttempted = false) ∧
    ((handlerTextB envNoSmtpHost bodyJo (.ok "t") (.ok "m")).status = 500 ∧
     (handlerTextB envNoSmtpHost bodyJo (.ok "t") (.ok "m")).error =
       some "Missing SMTP env vars" ∧
     (handlerTextB envNoSmtpHost bodyJo (.ok "t") (.ok "m")).backendCalled = false ∧
     (handlerTextB envNoSmtpHost bodyJo (.ok "t") (.ok "m")).sendAttempted = false) ∧
    ((handlerSvg envNoSmtpHost bodyJo (.ok (1000, 500)) (.ok "m")).status = 500 ∧
     (handlerSvg envNoSmtpHost bodyJo (.ok (1000, 500)) (.ok "m")).error =
       some "Missing SMTP env vars" ∧
     (handlerSvg envNoSmtpHost bodyJo (.ok (1000, 500)) (.ok "m")).sendAttempted =
       false) ∧
    ((handlerTextC envNoSmtpHost bodyJo (.ok "card")
       (.error "connect ECONNREFUSED")).status = 500 ∧
     (handlerTextC envNoSmtpHost bodyJo (.ok "card")
       (.error "connect ECONNREFUSED")).error = some "Internal error" ∧
     (handlerTextC envNoSmtpHost bodyJo (.ok "card")
       (.error "connect ECONNREFUSED")).sendAttempted = true) ∧
    ((handlerImgUpload envNoSmtpHost bodyJo (.ok ()) (.ok none)
       (.error "send failed")).status = 500 ∧
     (handlerImgUpload envNoSmtpHost bodyJo (.ok ()) (.ok none)
       (.error "send failed")).error = some "Render or email failed" ∧
     (handlerImgUpload envNoSmtpHost bodyJo (.ok ()) (.ok none)
       (.error "send failed")).sendAttempted = true) :=
  ⟨claim_config_errors_amended.1 _ bodyJo (.ok ()) (.ok none) (by decide),
   claim_config_errors_amended.2.1 envNoSmtpHost bodyJo (.ok "t") (.ok ()) (.ok ())
     (by decide) (by decide) (Or.inl (by decide)),
   claim_config_errors_amended.2.2.1 envNoFrom bodyJo (.ok "t") (.ok ())
     (by decide) (by decide) (by decide) (by decide) (by decide) (by decide)
     (by decide),
   claim_config_errors_amended.2.2.2.1 _ bodyJo (.ok "t") (.ok "m") (by decide),
   claim_config_errors_amended.2.2.2.2.1 envNoSmtpHost bodyJo (.ok "t") (.ok "m")
     (by decide) (Or.inl (by decide)),
   claim_config_errors_amended.2.2.2.2.2.1 envNoSmtpHost bodyJo (.ok (1000, 500))
     (.ok "m") (Or.inl (by decide)),
   claim_config_errors_amended.2.2.2.2.2.2.1 envNoSmtpHost bodyJo (.ok "card")
     "connect ECONNREFUSED" (by decide) (by decide),
   claim_config_errors_amended.2.2.2.2.2.2.2 envNoSmtpHost bodyJo "send failed"
     (by decide)⟩

/-- Counterexample to C9 as stated: the second text variant never validates
`name` — with `name` missing it still calls the backend, sends the email and
returns 200. -/
theorem claim_missing_fields_cex :
    (handlerTextB envFull bodyNoName (.ok "card text") (.ok "mid")).status = 200 ∧
    (handlerTextB envFull bodyNoName (.ok "card text") (.ok "mid")).backendCalled =
      true ∧
    (handlerTextB envFull bodyNoName (.ok "card text") (.ok "mid")).sent.length =
      1 := by
  decide

/-- Claim C9, amended: in every variant a body lacking `email` yields 400
with an error naming the missing field, no backend call and no email (in the
variants whose environment checks precede validation, assuming the
environment is configured); a body lacking `name` additionally yields 400 in
the two text variants that validate it (part_000 first handler, part_002),
while the second text variant proceeds with a placeholder name (see the
counterexample). -/
theorem claim_missing_fields_amended :
    (∀ (env : Env) (body : Body) (tpl : Except String Unit)
      (send : Except String (Option String)),
      env.RESEND_API_KEY ≠ "" → body.email = "" →
        (handlerRender env body tpl send).status = 400 ∧
        (handlerRender env body tpl send).error = some "Missing recipient email" ∧
        (handlerRender env body tpl send).sendAttempted = false ∧
        (handlerRender env body tpl send).sent = []) ∧
    (∀ (env : Env) (body : Body) (b : BackendResult) (vr sr : Except String Unit),
      jsTrim body.email = "" ∨ jsTrim body.name = "" →
        (handlerTextA env body b vr sr).status = 400 ∧
        (handlerTextA env body b vr sr).error =
          some "Missing required fields: name, email" ∧
        (handlerTextA env body b vr sr).backendCalled = false ∧
        (handlerTextA env body b vr sr).sendAttempted = false ∧
        (handlerTextA env body b vr sr).sent = []) ∧
    (∀ (env : Env) (body : Body) (b : BackendResult) (sr : Except String String),
      env.OPENAI_API_KEY ≠ "" → env.SMTP_HOST ≠ "" → env.SMTP_USER ≠ "" →
      env.SMTP_PASS ≠ "" → env.EMAIL_FROM ≠ "" → body.email = "" →
        (handlerTextB env body b sr).status = 400 ∧
        (handlerTextB env body b sr).error = some "Missing recipient email" ∧
        (handlerTextB env body b sr).backendCalled = false ∧
        (handlerTextB env body b sr).sendAttempted = false ∧
        (handlerTextB env body b sr).sent = []) ∧
    (∀ (env : Env) (body : Body) (b : BackendResult) (sr : Except String Unit),
      jsTrim body.email = "" ∨ jsTrim body.name = "" →
        (handlerTextC env body b sr).status = 400 ∧
        (handlerTextC env body b sr).error =
          some "Missing required fields: name, email" ∧
        (handlerTextC env body b sr).backendCalled = false ∧
        (handlerTextC env body b sr).sendAttempted = false ∧
        (handlerTextC env body b sr).sent = []) ∧
    (∀ (env : Env) (body : Body) (tpl : Except String (Nat × Nat))
      (sr : Except String String),
      env.SMTP_HOST ≠ "" → env.SMTP_USER ≠ "" → env.SMTP_PASS ≠ "" →
      env.EMAIL_FROM ≠ "" → body.email = "" →
        (handlerSvg env body tpl sr).status = 400 ∧
        (handlerSvg env body tpl sr).error = some "Missing recipient email" ∧
        (handlerSvg env body tpl sr).sendAttempted = false ∧
        (handlerSvg env body tpl sr).sent = []) ∧
    (∀ (env : Env) (body : Body) (tpl : Except String Unit)
      (up send : Except String (Option String)), body.email = "" →
        (handlerImgUpload env body tpl up send).status = 400 ∧
        (handlerImgUpload env body tpl up send).error =
          some "Missing recipient email" ∧
        (handlerImgUpload env body tpl up send).sendAttempted = false ∧
        (handlerImgUpload env body tpl up send).sent = []) :=
  ⟨fun env body tpl send hk hm => render_400_run env body tpl send hk hm,
   fun env body b vr sr hmiss => textA_400_run env body b vr sr hmiss,
   fun env body b sr h1 h2 h3 h4 h5 hm =>
     textB_400_run env body b sr h1 h2 h3 h4 h5 hm,
   fun env body b sr hmiss => textC_400_run env body b sr hmiss,
   fun env body tpl sr h1 h2 h3 h4 hm => svg_400_run env body tpl sr h1 h2 h3 h4 hm,
   fun env body tpl up send hm => imgUpload_400_run env body tpl up send hm⟩

/-- Witness for C9 (amended): each clause instantiated at a concrete body
lacking the email field (or the name field for the normalizer variants). -/
theorem claim_missing_fields_witness :
    ((handlerRender envFull ⟨"", "Jo", "", "", "", .absent, []⟩ (.ok ())
       (.ok none)).status = 400 ∧
     (handlerRender envFull ⟨"", "Jo", "", "", "", .absent, []⟩ (.ok ())
       (.ok none)).error = some "Missing recipient email" ∧
     (handlerRender envFull ⟨"", "Jo", "", "", "", .absent, []⟩ (.ok ())
       (.ok none)).sendAttempted = false ∧
     (handlerRender envFull ⟨"", "Jo", "", "", "", .absent, []⟩ (.ok ())
       (.ok none)).sent = []) ∧
    ((handlerTextA envFull bodyNoName (.ok "t") (.ok ()) (.ok ())).status = 400 ∧
     (handlerTextA envFull bodyNoName (.ok "t") (.ok ()) (.ok ())).error =
       some "Missing required fields: name, email" ∧
     (handlerTextA envFull bodyNoName (.ok "t") (.ok ()) (.ok ())).backendCalled =
       false ∧
     (handlerTextA envFull bodyNoName (.ok "t") (.ok ()) (.ok ())).sendAttempted =
       false ∧
     (handlerTextA envFull bodyNoName (.ok "t") (.ok ()) (.ok ())).sent = []) ∧
    ((handlerTextB envFull ⟨"", "Jo", "", "", "", .absent, []⟩ (.ok "t")
       (.ok "m")).status = 400 ∧
     (handlerTextB envFull ⟨"", "Jo", "", "", "", .absent, []⟩ (.ok "t")
       (.ok "m")).error = some "Missing recipient email" ∧
     (handlerTextB envFull ⟨"", "Jo", "", "", "", .absent, []⟩ (.ok "t")
       (.ok "m")).backendCalled = false ∧
     (handlerTextB envFull ⟨"", "Jo", "", "", "", .absent, []⟩ (.ok "t")
       (.ok "m")).sendAttempted = false ∧
     (handlerTextB envFull ⟨"", "Jo", "", "", "", .absent, []⟩ (.ok "t")
       (.ok "m")).sent = []) ∧
    ((handlerTextC envFull bodyNoName (.ok "t") (.ok ())).status = 400 ∧
     (handlerTextC envFull bodyNoName (.ok "t") (.ok ())).error =
       some "Missing required fields: name, email" ∧
     (handlerTextC envFull bodyNoName (.ok "t") (.ok ())).backendCalled = false ∧
     (handlerTextC envFull bodyNoName (.ok "t") (.ok ())).sendAttempted = false ∧
     (handlerTextC envFull bodyNoName (.ok "t") (.ok ())).sent = []) ∧
    ((handlerSvg envFull ⟨"", "Jo", "", "", "", .absent, []⟩ (.ok (1000, 500))
       (.ok "m")).status = 400 ∧
     (handlerSvg envFull ⟨"", "Jo", "", "", "", .absent, []⟩ (.ok (1000, 500))
       (.ok "m")).error = some "Missing recipient email" ∧
     (handlerSvg envFull ⟨"", "Jo", "", "", "", .absent, []⟩ (.ok (1000, 500))
       (.ok "m")).sendAttempted = false ∧
     (handlerSvg envFull ⟨"", "Jo", "", "", "", .absent, []⟩ (.ok (1000, 500))
       (.ok "m")).sent = []) ∧
    ((handlerImgUpload envFull ⟨"", "Jo", "", "", "", .absent, []⟩ (.ok ())
       (.ok none) (.ok none)).status = 400 ∧
     (handlerImgUpload envFull ⟨"", "Jo", "", "", "", .absent, []⟩ (.ok ())
       (.ok none) (.ok none)).error = some "Missing recipient email" ∧
     (handlerImgUpload envFull ⟨"", "Jo", "", "", "", .absent, []⟩ (.ok ())
       (.ok none) (.ok none)).sendAttempted = false ∧
     (handlerImgUpload envFull ⟨"", "Jo", "", "", "", .absent, []⟩ (.ok ())
       (.ok none) (.ok none)).sent = []) :=
  ⟨claim_missing_fields_amended.1 envFull _ (.ok ()) (.ok none) (by decide) rfl,
   claim_missing_fields_amended.2.1 envFull bodyNoName (.ok "t") (.ok ()) (.ok ())
     (Or.inr (by decide)),
   claim_missing_fields_amended.2.2.1 envFull _ (.ok "t") (.ok "m") (by decide)
     (by decide) (by decide) (by decide) (by decide) rfl,
   claim_missing_fields_amended.2.2.2.1 envFull bodyNoName (.ok "t") (.ok ())
     (Or.inr (by decide)),
   claim_missing_fields_amended.2.2.2.2.1 envFull _ (.ok (1000, 500)) (.ok "m")
     (by decide) (by decide) (by decide) (by decide) rfl,
   claim_missing_fields_amended.2.2.2.2.2 envFull _ (.ok ()) (.ok none) (.ok none)
     rfl⟩

/-- Claim C10: in the Resend-based image variants the `FROM_EMAIL` constant
falls back to a hardcoded non-empty default when `EMAIL_FROM` is unset, so
the guard behind the 500 `Missing EMAIL_FROM env var` response is never
true: with `EMAIL_FROM` unset a valid request still succeeds with 200 and
the email is sent from the default address. -/
theorem claim_from_default (env : Env) (body : Body) (mid : Option String)
    (hunset : env.EMAIL_FROM = "") (hkey : env.RESEND_API_KEY ≠ "")
    (hemail : body.email ≠ "") :
    (∀ e : Env, FROM_EMAIL e ≠ "") ∧
    FROM_EMAIL env = "Jaylen <jaylen@onresend.com>" ∧
    FROM_EMAIL3 env = "no-reply@example.com" ∧
    ((handlerRender env body (.ok ()) (.ok mid)).status = 200 ∧
     (handlerRender env body (.ok ()) (.ok mid)).sent.map Sent.sender =
       ["Jaylen <jaylen@onresend.com>"]) ∧
    ((handlerImgUpload env body (.ok ()) (.ok none) (.ok mid)).status = 200 ∧
     (handlerImgUpload env body (.ok ()) (.ok none) (.ok mid)).sent.map Sent.sender =
       ["no-reply@example.com"]) :=
  ⟨from_email_ne, by simp [FROM_EMAIL, hunset], by simp [FROM_EMAIL3, hunset],
   render_default_from_run env body mid hunset hkey hemail,
   imgUpload_default_from_run env body mid hunset hemail⟩

/-- Witness for C10 at an environment with `EMAIL_FROM` unset. -/
theorem claim_from_default_witness :
    FROM_EMAIL envNoFrom = "Jaylen <jaylen@onresend.com>" ∧
    FROM_EMAIL3 envNoFrom = "no-reply@example.com" ∧
    ((handlerRender envNoFrom bodyJo (.ok ()) (.ok (some "id"))).status = 200 ∧
     (handlerRender envNoFrom bodyJo (.ok ()) (.ok (some "id"))).sent.map
       Sent.sender = ["Jaylen <jaylen@onresend.com>"]) ∧
    ((handlerImgUpload envNoFrom bodyJo (.ok ()) (.ok none)
       (.ok (some "id"))).status = 200 ∧
     (handlerImgUpload envNoFrom bodyJo (.ok ()) (.ok none)
       (.ok (some "id"))).sent.map Sent.sender = ["no-reply@example.com"]) :=
  ⟨(claim_from_default envNoFrom bodyJo (some "id") rfl (by decide) (by decide)).2.1,
   (claim_from_default envNoFrom bodyJo (some "id") rfl (by decide) (by decide)).2.2.1,
   (claim_from_default envNoFrom bodyJo (some "id") rfl (by decide)
     (by decide)).2.2.2.1,
   (claim_from_default envNoFrom bodyJo (some "id") rfl (by decide)
     (by decide)).2.2.2.2⟩
